import Mathlib

/-!
# Gesture classification, debouncing and dispatch of the INKLUSIV extension

Shallow embedding of `content-scripts/gestureHandler.js`
(`InklusivGestureHandler.classifyGesture`, `isOKGesture`, `detectGestures`,
`executeGesture` and the gesture handlers, `onResults`, and the capture
controller `toggleGestureInput`, `startGestureTracking`, `stopGestureTracking`
with the two message listeners), followed by the properties the specification
states about them.

Modelling conventions.

* A JavaScript number that the handler reads is a `Coord`: `some q` is a finite
  value, held exactly as a rational (every finite double is one, and `<`, `>` on
  doubles are exact); `none` is a value whose numeric conversion is `NaN`
  (`NaN` itself, or a coordinate that is `undefined`).  Every comparison with
  `NaN` is false and arithmetic on `NaN` gives `NaN`.
* The arithmetic of `isOKGesture` is double precision: the exact result of each
  of `-`, `Math.pow(d, 2)` (the product `d * d`), `+` and `Math.sqrt` is rounded
  to the nearest double, ties to the even significand, subnormal numbers
  included (`roundDouble`, `sqrtDouble`), and `0.05` is the double that the
  literal denotes (`double005`). The exponent is not bounded above: a result
  that overflows in JavaScript is far above 0.05 here as well, so the test
  `distance < 0.05` comes out the same.
* A thrown exception is `none` in the `Option` monad for code without effects,
  and `Except.error w` (with the world `w` at the throw) for code with effects;
  each `try`/`catch` of the source is a `match` on that result.
* Calls that leave the handler (`window.scrollBy`, `click()`, notifications, log
  lines, ...) are recorded, in order, in the `effects` trace of the `World`.
* An `async` method runs to its end without interleaving; what the platform
  answers at each `await` is given by a `CameraEnv`.
* The other scripts are embedded as far as the specification speaks of them:
  `InklusivBackground.toggleFeature` with `getSettings`, `saveSettings` and
  `broadcastToAllTabs` (`background.js`), `processSpeechCommand`
  (`voiceHandler.js`), `drag`, `adjustPositionOnResize` and `toggleFeature` of the
  widget (`widget.js`), and the validation loop of `importSettings` (`popup.js`).
  A JavaScript string is a Lean `String`; positions count characters, which are
  the UTF-16 units of JavaScript for the characters of the basic plane.
-/

namespace Inklusiv

/-! ## Data model -/

/-- A JavaScript number after numeric conversion: finite (`some`) or `NaN` (`none`). -/
abbrev Coord := Option ℚ

/-- One landmark object `{x, y, z}` as delivered by the landmark source. -/
structure Landmark where
  x : Coord
  y : Coord
  z : Coord
deriving DecidableEq, Repr

/-- The `landmarks` argument: `none` is `undefined`/`null` (no sequence at all);
an entry `none` is an `undefined`/`null` element; an index past the end reads
`undefined` as well. -/
abbrev Landmarks := Option (List (Option Landmark))

/-- The expression `landmarks[i]` when a property is read from it next:
`none` means that reading throws a `TypeError`. -/
def landmarkAt (landmarks : Landmarks) (i : Nat) : Option Landmark :=
  match landmarks with
  | none => none
  | some l => (l.get? i).join

/-- JavaScript `a < b` on numbers. -/
def jsLt (a b : Coord) : Bool :=
  match a, b with
  | some p, some q => decide (p < q)
  | _, _ => false

/-- JavaScript `a > b` on numbers. -/
def jsGt (a b : Coord) : Bool := jsLt b a

/-- The loop of `log2`, on at most `fuel` halvings. -/
def log2Aux : ℕ → ℕ → ℕ
  | 0, _ => 0
  | fuel + 1, n => if n < 2 then 0 else log2Aux fuel (n / 2) + 1

/-- The whole part of the base-2 logarithm of `n`, for positive `n`. -/
def log2 (n : ℕ) : ℕ := log2Aux n n

/-- The whole part of the base-2 logarithm of `n / d`, for positive `n` and `d`. -/
def floorLog2 (n d : ℕ) : ℤ :=
  let k : ℤ := (log2 n : ℤ) - (log2 d : ℤ)
  if 0 ≤ k then (if n < d * 2 ^ k.toNat then k - 1 else k)
  else (if n * 2 ^ (-k).toNat < d then k - 1 else k)

/-- The fraction `(n / d) / 2 ^ e` as a numerator and a denominator. -/
def scaleDown (n d : ℕ) (e : ℤ) : ℕ × ℕ :=
  if 0 ≤ e then (n, d * 2 ^ e.toNat) else (n * 2 ^ (-e).toNat, d)

/-- The integer nearest to `n / d`, the even one of the two when `n / d` lies half
way between them. -/
def roundHalfEven (n d : ℕ) : ℕ :=
  let c := n / d
  let r := n % d
  if 2 * r < d then c
  else if d < 2 * r then c + 1
  else if c % 2 = 0 then c else c + 1

/-- The rational `m * 2 ^ e`. -/
def timesTwoPow (m : ℕ) (e : ℤ) : ℚ :=
  if 0 ≤ e then mkRat (m * 2 ^ e.toNat : ℕ) 1 else mkRat (m : ℤ) (2 ^ (-e).toNat)

/-- The double nearest to a rational: 53 significant bits, exponents from -1074
on, ties to the even significand. -/
def roundDouble (q : ℚ) : ℚ :=
  if q = 0 then 0
  else
    let n := q.num.natAbs
    let d := q.den
    let e : ℤ := max (floorLog2 n d - 52) (-1074)
    let m := roundHalfEven (scaleDown n d e).1 (scaleDown n d e).2
    if q < 0 then -timesTwoPow m e else timesTwoPow m e

/-- The bits of the whole part of the square root of `n`, from bit `b - 1` down. -/
def isqrtAux (n : ℕ) : ℕ → ℕ → ℕ
  | 0, r => r
  | b + 1, r => if (r + 2 ^ b) * (r + 2 ^ b) ≤ n then isqrtAux n b (r + 2 ^ b) else isqrtAux n b r

/-- The whole part of the square root of `n`. -/
def isqrt (n : ℕ) : ℕ := isqrtAux n (log2 n / 2 + 1) 0

/-- The double nearest to the square root of a rational `q ≥ 0`. -/
def sqrtDouble (q : ℚ) : ℚ :=
  if q ≤ 0 then 0
  else
    let n := q.num.natAbs
    let d := q.den
    let k : ℤ := floorLog2 n d / 2
    let s := scaleDown n d (-(2 * (52 - k) + 2))
    let a := isqrt (s.1 / s.2)
    let m := if a % 2 = 1 ∧ a * a * s.2 = s.1 then (if (a / 2) % 2 = 0 then a / 2 else a / 2 + 1)
      else (a + 1) / 2
    timesTwoPow m (k - 52)

/-- The double that the literal `0.05` denotes. -/
def double005 : ℚ := mkRat 3602879701896397 72057594037927936

/-- JavaScript `a - b` on numbers. -/
def jsSub (a b : Coord) : Coord :=
  match a, b with
  | some p, some q => some (roundDouble (p - q))
  | _, _ => none

/-- JavaScript `a + b` on numbers. -/
def jsAdd (a b : Coord) : Coord :=
  match a, b with
  | some p, some q => some (roundDouble (p + q))
  | _, _ => none

/-- The call `Math.pow(a, 2)`. -/
def jsPow2 (a : Coord) : Coord :=
  match a with
  | some p => some (roundDouble (p * p))
  | none => none

/-- The call `Math.sqrt(a)`: `NaN` for a negative number. -/
def jsSqrt (a : Coord) : Coord :=
  match a with
  | some p => if p < 0 then none else some (sqrtDouble p)
  | none => none

/-! ## Classification -/

/-- The constant `fingerTips` of `classifyGesture`. -/
def fingerTips : List Nat := [4, 8, 12, 16, 20]

/-- The constant `fingerPips` of `classifyGesture`. -/
def fingerPips : List Nat := [3, 6, 10, 14, 18]

/-- The body of the `try` block of `isOKGesture`; `none` when it throws. -/
def isOKGestureBody (landmarks : Landmarks) : Option Bool := do
  let thumbTip ← landmarkAt landmarks 4
  let indexTip ← landmarkAt landmarks 8
  let distance := jsSqrt (jsAdd (jsPow2 (jsSub thumbTip.x indexTip.x))
    (jsPow2 (jsSub thumbTip.y indexTip.y)))
  pure (jsLt distance (some double005))

/-- The method `isOKGesture(landmarks)`: the `catch` branch returns `false`. -/
def isOKGesture (landmarks : Landmarks) : Bool :=
  match isOKGestureBody landmarks with
  | some b => b
  | none => false

/-- One round of the loop `for (let i = 1; i < 5; i++)`: pushes the bit of finger `i`. -/
def pushFinger (landmarks : Landmarks) (fingersUp : List Nat) (i : Nat) : Option (List Nat) := do
  let tip ← landmarkAt landmarks (fingerTips.getD i 0)
  let pip ← landmarkAt landmarks (fingerPips.getD i 0)
  pure (if jsLt tip.y pip.y then fingersUp ++ [1] else fingersUp ++ [0])

/-- The array `fingersUp` as `classifyGesture` builds it: the thumb test, then the
loop over the fingers 1 to 4; `none` when a landmark read throws. -/
def computeFingersUp (landmarks : Landmarks) : Option (List Nat) := do
  let thumbTip ← landmarkAt landmarks 4
  let thumbIp ← landmarkAt landmarks 3
  let fingersUp : List Nat := if jsGt thumbTip.x thumbIp.x then [1] else [0]
  [1, 2, 3, 4].foldlM (pushFinger landmarks) fingersUp

/-- The value `fingersUp.reduce((a, b) => a + b, 0)`. -/
def fingerCount (fingersUp : List Nat) : Nat := fingersUp.foldl (fun a b => a + b) 0

/-- The chain of `if` statements of `classifyGesture` after `fingersUp` is built. -/
def classifyFingers (landmarks : Landmarks) (fingersUp : List Nat) : String :=
  if fingersUp.get? 1 = some 1 ∧ fingerCount fingersUp = 1 then "point"
  else if fingersUp.get? 1 = some 1 ∧ fingersUp.get? 2 = some 1 ∧ fingerCount fingersUp = 2 then
    "peace"
  else if isOKGesture landmarks then "ok"
  else if fingerCount fingersUp = 0 then "fist"
  else if fingerCount fingersUp = 5 then "open"
  else if fingersUp.get? 0 = some 1 ∧ fingerCount fingersUp = 1 then "thumbsup"
  else "unknown"

/-- The body of the `try` block of `classifyGesture`; `none` when it throws. -/
def classifyGestureBody (landmarks : Landmarks) : Option String := do
  let fingersUp ← computeFingersUp landmarks
  pure (classifyFingers landmarks fingersUp)

/-- The method `classifyGesture(landmarks)`: the `catch` branch logs and returns
`'unknown'`. -/
def classifyGesture (landmarks : Landmarks) : String :=
  match classifyGestureBody landmarks with
  | some gesture => gesture
  | none => "unknown"

/-- A hand of 21 landmarks: a sequence of length 21 with every entry an object. -/
def isHand21 (landmarks : Landmarks) : Bool :=
  match landmarks with
  | none => false
  | some l => l.length == 21 && l.all Option.isSome

/-- A landmark all of whose coordinates are numbers. -/
def Landmark.isNumeric (p : Landmark) : Bool := p.x.isSome && p.y.isSome && p.z.isSome

/-- A well-formed input: 21 landmarks, each with numeric coordinates. -/
def isWellFormed (landmarks : Landmarks) : Bool :=
  match landmarks with
  | none => false
  | some l => l.length == 21 && l.all (fun e => match e with
      | some p => p.isNumeric
      | none => false)

/-! ## Page, effects and handler state -/

/-- A DOM element as far as `handleOKGesture` looks at it: `tagName` as the DOM
reports it (upper case for HTML elements) and the value of its `type` attribute. -/
structure Element where
  id : Nat
  tagName : String
  typeAttr : Option String
deriving DecidableEq, Repr

/-- What the gesture handlers read from the page and from the sibling content
scripts at the moment of the call. -/
structure Page where
  /-- The value `document.activeElement`. -/
  activeElement : Option Element
  /-- All elements of the document, in document order. -/
  elements : List Element
  /-- Whether `window.speechSynthesis` is there. -/
  speechSynthesis : Bool
  /-- The field `window.inklusivAccessibility.isReading`; `none` when the global is missing. -/
  inklusivAccessibility : Option Bool
  /-- The field `window.inklusivVoiceHandler.isEnabled`; `none` when the global is missing. -/
  inklusivVoiceHandler : Option Bool
deriving DecidableEq, Repr

/-- The log lines of the gesture pipeline. The text of a caught error
(`error.message`) depends on the engine and is not part of the model. -/
inductive LogMsg where
  /-- The line "Gesture detected: GESTURE (HAND hand)" of `executeGesture`. -/
  | gestureDetected (gesture hand : String)
  /-- The line "Gesture classification error: ..." of `classifyGesture`. -/
  | classificationError
  /-- The line "Gesture execution error: ..." of `executeGesture`. -/
  | executionError
  /-- The line "Gesture processing error: ..." of `onResults`. -/
  | processingError
  /-- The line "Gesture tracking start error: ..." of `startGestureTracking`. -/
  | trackingStartError
  /-- The line "Gesture tracking stop error: ..." of `stopGestureTracking`. -/
  | trackingStopError
deriving DecidableEq, Repr

/-- A call that leaves the handler. -/
inductive Effect where
  /-- The call `window.inklusivUtils.log(message, type)`. -/
  | log (message : LogMsg) (type : String)
  /-- The call `window.scrollBy(x, y)`. -/
  | scrollBy (x y : Int)
  /-- The call `click()` on the element with this id. -/
  | click (elementId : Nat)
  /-- The call `window.history.back()`. -/
  | historyBack
  /-- The call `window.speechSynthesis.cancel()`. -/
  | speechCancel
  /-- The call `window.location.reload()`. -/
  | reload
  /-- The call `window.inklusivUtils.toggleFeature(feature, value)`. -/
  | toggleFeature (feature : String) (value : Bool)
  /-- The call `window.inklusivUtils.showNotification(message, type, duration)`. -/
  | showNotification (message : String) (type : String) (duration : Nat)
  /-- A call on the 2D context of the preview canvas (`save`, `clearRect`,
  `drawImage`, `restore`), or one whole run of `drawHandLandmarks`. -/
  | canvas (call : String)
  /-- The call `navigator.mediaDevices.getUserMedia(...)`. -/
  | getUserMedia
  /-- An element of this tag is created and appended to `document.body`. -/
  | appendElement (tag : String)
  /-- An element of this tag, created by the handler, is removed from the document. -/
  | removeElement (tag : String)
  /-- The call `new window.Camera(...)`. -/
  | newCamera
  /-- The call `camera.start()`. -/
  | cameraStart
  /-- The call `camera.stop()`. -/
  | cameraStop
  /-- The call `track.stop()` on every track of the stream of the video element. -/
  | stopTracks
  /-- The DOM updates of `updateGestureStatus(isActive)`: the `active` class of the
  widget's gesture button and the `display` style of the preview canvas. -/
  | updateGestureStatus (isActive : Bool)
  /-- The call `updateButtonState(feature, enabled)` of the widget. -/
  | updateButtonState (feature : String) (enabled : Bool)
  /-- The call `animateStatusChange(feature)` of the widget. -/
  | animateStatusChange (feature : String)
deriving DecidableEq, Repr

/-- The fields of `InklusivGestureHandler`. Objects owned by the capture
controller are modelled by their presence (`true` for a non-null reference). -/
structure InklusivGestureHandler where
  isEnabled : Bool
  isInitialized : Bool
  camera : Bool
  hands : Bool
  videoElement : Bool
  /-- Whether `videoElement.srcObject` holds a stream. -/
  videoSrcObject : Bool
  canvasElement : Bool
  canvasCtx : Bool
  gestureHistory : List String
  lastGestureTime : Int
  gestureThreshold : Int
deriving DecidableEq, Repr

/-- The field initialisers of the constructor. -/
def InklusivGestureHandler.new : InklusivGestureHandler where
  isEnabled := false
  isInitialized := false
  camera := false
  hands := false
  videoElement := false
  videoSrcObject := false
  canvasElement := false
  canvasCtx := false
  gestureHistory := []
  lastGestureTime := 0
  gestureThreshold := 500

/-- The handler together with the page it runs in and the trace of its calls. -/
structure World where
  handler : InklusivGestureHandler
  page : Page
  effects : List Effect
deriving DecidableEq, Repr

/-- Records one call in the trace. -/
def World.emit (w : World) (e : Effect) : World := { w with effects := w.effects ++ [e] }

/-- A log line "Gesture detected: ...": the mark of a dispatch. -/
def Effect.isDispatch : Effect → Bool
  | .log (.gestureDetected _ _) _ => true
  | _ => false

/-- A page-level action of the dispatcher. -/
def Effect.isPageAction : Effect → Bool
  | .scrollBy _ _ => true
  | .click _ => true
  | .historyBack => true
  | .speechCancel => true
  | .reload => true
  | .toggleFeature _ _ => true
  | _ => false

/-- A notification shown to the user. -/
def Effect.isNotification : Effect → Bool
  | .showNotification _ _ _ => true
  | _ => false

/-! ## Dispatch -/

/-- The method `handlePointGesture`. -/
def handlePointGesture (w : World) : World := w.emit (.scrollBy 0 200)

/-- The method `handlePeaceGesture`. -/
def handlePeaceGesture (w : World) : World := w.emit (.scrollBy 0 (-200))

/-- Whether an element matches the selector
`button, input[type="submit"], input[type="button"]`. -/
def matchesButtonSelector (e : Element) : Bool :=
  e.tagName == "BUTTON" ||
    (e.tagName == "INPUT" && (e.typeAttr == some "submit" || e.typeAttr == some "button"))

/-- The call `document.querySelector('button, input[type="submit"], input[type="button"]')`. -/
def querySelectorButton (page : Page) : Option Element := page.elements.find? matchesButtonSelector

/-- The method `handleOKGesture`. -/
def handleOKGesture (w : World) : World :=
  match w.page.activeElement with
  | some activeElement =>
    if activeElement.tagName = "BUTTON" ∨ activeElement.tagName = "A" then
      w.emit (.click activeElement.id)
    else
      match querySelectorButton w.page with
      | some button => w.emit (.click button.id)
      | none => w
  | none =>
    match querySelectorButton w.page with
    | some button => w.emit (.click button.id)
    | none => w

/-- The method `handleFistGesture`. -/
def handleFistGesture (w : World) : World := w.emit .historyBack

/-- The method `stopSpeaking` of the accessibility script. -/
def stopSpeaking (w : World) : World :=
  if w.page.speechSynthesis then
    { (w.emit .speechCancel) with page := { w.page with inklusivAccessibility := some false } }
  else w

/-- The method `handleOpenHandGesture`; `none` when reading
`window.inklusivAccessibility.isReading` throws. -/
def handleOpenHandGesture (w : World) : Option World :=
  match w.page.inklusivAccessibility with
  | none => none
  | some isReading => if isReading then some (stopSpeaking w) else some (w.emit .reload)

/-- The method `handleThumbsUpGesture`; `none` when reading
`window.inklusivVoiceHandler.isEnabled` throws. -/
def handleThumbsUpGesture (w : World) : Option World :=
  match w.page.inklusivVoiceHandler with
  | none => none
  | some currentVoiceState => some (w.emit (.toggleFeature "voiceInput" (!currentVoiceState)))

/-- The table `gestureNames` of `showGestureFeedback`. -/
def gestureNames : List (String × String) :=
  [("point", "Point (Scroll Down)"), ("peace", "Peace (Scroll Up)"), ("ok", "OK (Click)"),
   ("fist", "Fist (Go Back)"), ("open", "Open Hand (Stop/Refresh)"),
   ("thumbsup", "Thumbs Up (Toggle Voice)")]

/-- The method `showGestureFeedback`: `gestureNames[gesture] || gesture`. -/
def showGestureFeedback (w : World) (gesture : String) : World :=
  let gestureName := (gestureNames.lookup gesture).getD gesture
  w.emit (.showNotification ("Gesture: " ++ gestureName) "info" 1500)

/-- The call `toLowerCase()` on a label, for the ASCII letters (the labels of
the landmark source are `Left` and `Right`). -/
def toLowerCase (s : String) : String := ⟨s.data.map Char.toLower⟩

/-- The `switch` of `executeGesture`; `none` when the chosen handler throws. -/
def gestureSwitch (w : World) (gesture : String) : Option World :=
  if gesture = "point" then some (handlePointGesture w)
  else if gesture = "peace" then some (handlePeaceGesture w)
  else if gesture = "ok" then some (handleOKGesture w)
  else if gesture = "fist" then some (handleFistGesture w)
  else if gesture = "open" then handleOpenHandGesture w
  else if gesture = "thumbsup" then handleThumbsUpGesture w
  else some w

/-- The method `executeGesture(gesture, handedness)`. The argument `handedness`
is the label of the hand; `none` stands for a value on which
`handedness.label.toLowerCase()` throws, which happens before any effect and
outside the `try` block, so the exception leaves the method. -/
def executeGesture (w : World) (gesture : String) (handedness : Option String) :
    Except World World :=
  match handedness with
  | none => .error w
  | some label =>
    let hand := toLowerCase label
    let w1 := w.emit (.log (.gestureDetected gesture hand) "info")
    match gestureSwitch w1 gesture with
    | some w2 => .ok (showGestureFeedback w2 gesture)
    | none => .ok (w1.emit (.log .executionError "error"))

/-- The log line that `classifyGesture` writes in its `catch` branch. -/
def classifyGestureLog (landmarks : Landmarks) : List Effect :=
  match classifyGestureBody landmarks with
  | some _ => []
  | none => [.log .classificationError "error"]

/-- The method `detectGestures(landmarks, handedness)`, with `now` the value of
`Date.now()` at the call. -/
def detectGestures (w : World) (now : Int) (landmarks : Landmarks)
    (handedness : Option String) : Except World World :=
  if now - w.handler.lastGestureTime < w.handler.gestureThreshold then .ok w
  else
    let gesture := classifyGesture landmarks
    let w1 : World := { w with effects := w.effects ++ classifyGestureLog landmarks }
    if gesture ≠ "" ∧ gesture ≠ "unknown" then
      match executeGesture w1 gesture handedness with
      | .ok w2 => .ok { w2 with handler := { w2.handler with lastGestureTime := now } }
      | .error w2 => .error w2
    else .ok w1

/-- The world a caller of `detectGestures` goes on with, whether the call
returned or threw. -/
def afterDetect (w : World) (now : Int) (landmarks : Landmarks)
    (handedness : Option String) : World :=
  match detectGestures w now landmarks handedness with
  | .ok w1 => w1
  | .error w1 => w1

/-- The number of dispatches recorded in a trace. -/
def dispatchCount (effects : List Effect) : Nat := (effects.filter Effect.isDispatch).length

/-- Whether a gesture was dispatched between two worlds. -/
def dispatchedBetween (before after : World) : Bool :=
  decide (dispatchCount before.effects < dispatchCount after.effects)

/-- One call of `detectGestures` in a session: the time, the hand and the page
as they are at the call. -/
structure Call where
  now : Int
  landmarks : Landmarks
  handedness : Option String
  page : Page

/-- The world after one call of a session. -/
def callStep (w : World) (c : Call) : World :=
  afterDetect { w with page := c.page } c.now c.landmarks c.handedness

/-- The world after a sequence of calls. -/
def runCalls (w : World) (calls : List Call) : World := calls.foldl callStep w

/-- The times of the calls of a sequence that dispatched, in order. -/
def dispatchTimes (w : World) : List Call → List Int
  | [] => []
  | c :: cs =>
    (if dispatchedBetween { w with page := c.page } (callStep w c) then [c.now] else []) ++
      dispatchTimes (callStep w c) cs

/-- A handler as the constructor leaves it, in a page, with an empty trace. -/
def freshWorld (page : Page) : World :=
  { handler := InklusivGestureHandler.new, page := page, effects := [] }

/-! ## The specification's wording of the classifier -/

/-- The landmark at an index of a hand, for use where the hand has it. -/
def pt (landmarks : Landmarks) (i : Nat) : Landmark :=
  (landmarkAt landmarks i).getD ⟨none, none, none⟩

/-- The extension vector of the specification, in the order thumb, index,
middle, ring, pinky. -/
def extensionVector (landmarks : Landmarks) : List Bool :=
  [jsGt (pt landmarks 4).x (pt landmarks 3).x,
   jsLt (pt landmarks 8).y (pt landmarks 6).y,
   jsLt (pt landmarks 12).y (pt landmarks 10).y,
   jsLt (pt landmarks 16).y (pt landmarks 14).y,
   jsLt (pt landmarks 20).y (pt landmarks 18).y]

/-- The distance of two points of the x-y plane as `isOKGesture` computes it, for
numeric coordinates: `Math.sqrt(Math.pow(dx, 2) + Math.pow(dy, 2))`, each step
rounded to the nearest double. -/
def computedDistance (x4 y4 x8 y8 : ℚ) : ℚ :=
  sqrtDouble (roundDouble (roundDouble (roundDouble (x4 - x8) * roundDouble (x4 - x8))
    + roundDouble (roundDouble (y4 - y8) * roundDouble (y4 - y8))))

/-- The flag `ok` of the decision list: the distance of the thumb tip and the
index tip, as computed in double precision, is below the double 0.05. -/
def tipsTouch (landmarks : Landmarks) : Bool :=
  match (pt landmarks 4).x, (pt landmarks 4).y, (pt landmarks 8).x, (pt landmarks 8).y with
  | some x4, some y4, some x8, some y8 => decide (computedDistance x4 y4 x8 y8 < double005)
  | _, _, _, _ => false

/-- The exact reading of the flag: the Euclidean distance of the thumb tip and
the index tip in the x-y plane is below 0.05, that is, the squared distance is
below 0.0025, in exact arithmetic. -/
def closerExact (landmarks : Landmarks) : Bool :=
  match (pt landmarks 4).x, (pt landmarks 4).y, (pt landmarks 8).x, (pt landmarks 8).y with
  | some x4, some y4, some x8, some y8 =>
    decide ((x4 - x8) ^ 2 + (y4 - y8) ^ 2 < (1 / 20 : ℚ) ^ 2)
  | _, _, _, _ => false

/-- The decision list of the specification over the extension vector `up`, its
count `n` and the flag `ok`; the first rule that matches wins. -/
def decisionList (up : List Bool) (n : Nat) (ok : Bool) : String :=
  if up.getD 1 false ∧ n = 1 then "point"
  else if up.getD 1 false ∧ up.getD 2 false ∧ n = 2 then "peace"
  else if ok then "ok"
  else if n = 0 then "fist"
  else if n = 5 then "open"
  else if up.getD 0 false ∧ n = 1 then "thumbsup"
  else "unknown"

/-- The labels a classification may return. -/
def gestureLabels : List String :=
  ["point", "peace", "ok", "fist", "open", "thumbsup", "unknown"]

/-- The landmark indices that classification reads. -/
def neededIndices : List Nat := [3, 4, 6, 8, 10, 12, 14, 16, 18, 20]

/-! ## Sample hands -/

/-- A landmark with the given `x` and `y` and depth 0. -/
def mkPoint (x y : ℚ) : Landmark := ⟨some x, some y, some 0⟩

/-- A hand all of whose 21 landmarks are the same point. -/
def constHand (p : Landmark) : Landmarks := some (List.replicate 21 (some p))

/-- A hand equal to `base` everywhere but at the listed indices. -/
def handWith (base : Landmark) (changes : List (Nat × Landmark)) : Landmarks :=
  some ((List.range 21).map (fun i => some ((changes.lookup i).getD base)))

/-- The hand of the index-only shape whose thumb tip lies on the index tip:
every landmark is (0, 0) but the index middle joint, which is at (0, 1). -/
def pointTouchHand : Landmarks := handWith (mkPoint 0 0) [(6, mkPoint 0 1)]

/-- The hand with every landmark at (0, 0, 0). -/
def allZeroHand : Landmarks := constHand (mkPoint 0 0)

/-- A hand with the five fingers extended whose thumb tip lies on the index tip. -/
def openTouchHand : Landmarks :=
  handWith (mkPoint 0 0)
    [(4, mkPoint 1 0), (8, mkPoint 1 0), (6, mkPoint 1 1), (10, mkPoint 0 1),
     (14, mkPoint 0 1), (18, mkPoint 0 1)]

/-- A closed hand whose thumb tip is away from the index tip. -/
def fistHand : Landmarks := handWith (mkPoint 0 0) [(8, mkPoint 1 0)]

/-- An open hand whose thumb tip is away from the index tip. -/
def openHand : Landmarks :=
  handWith (mkPoint 0 0)
    [(4, mkPoint 1 0), (6, mkPoint 0 1), (10, mkPoint 0 1), (14, mkPoint 0 1),
     (18, mkPoint 0 1)]

/-- A hand of 21 objects none of which has a coordinate (`{}` 21 times). -/
def emptyObjectsHand : Landmarks := constHand ⟨none, none, none⟩

/-- A page with nothing focused, no element, speech idle and voice input off. -/
def samplePage : Page :=
  { activeElement := none, elements := [], speechSynthesis := true,
    inklusivAccessibility := some false, inklusivVoiceHandler := some false }

/-- Both coordinates are numbers and the first is strictly below the second. -/
def numLt (a b : Coord) : Prop := ∃ p q : ℚ, a = some p ∧ b = some q ∧ p < q


/-! ## Frame results -/

/-- The argument of `onResults`, as far as the handler reads it. -/
structure FrameResults where
  /-- Whether `results.image` is something `drawImage` accepts. -/
  image : Bool
  /-- The field `results.multiHandLandmarks`; `none` when it is missing. -/
  multiHandLandmarks : Option (List Landmarks)
  /-- The field `results.multiHandedness`; `none` when it is missing. An entry is
  the label of the hand, or `none` when the entry or its label is missing. -/
  multiHandedness : Option (List (Option String))

/-- Whether `drawHandLandmarks(landmarks)` runs to its end: it reads `x` and `y`
of the landmarks 0 to 20 and of every entry of the sequence. -/
def isDrawable (landmarks : Landmarks) : Bool :=
  match landmarks with
  | none => false
  | some l => decide (21 ≤ l.length) && l.all Option.isSome

/-- The method `drawHandLandmarks(landmarks)`, called with a context: the strokes
and dots are one `canvas` entry of the trace; a throw leaves the trace as it is. -/
def drawHandLandmarks (w : World) (landmarks : Landmarks) : Except World World :=
  if isDrawable landmarks then .ok (w.emit (.canvas "drawHandLandmarks")) else .error w

/-- The body of the loop of `onResults` for the hand `i`, with `now` the value of
`Date.now()` in its call of `detectGestures`. -/
def handStep (results : FrameResults) (now : Int) (i : Nat) (landmarks : Landmarks)
    (w : World) : Except World World :=
  match results.multiHandedness with
  | none => .error w
  | some labels =>
    let handedness := (labels.get? i).join
    match (if w.handler.canvasCtx then drawHandLandmarks w landmarks else .ok w) with
    | .error w1 => .error w1
    | .ok w1 => detectGestures w1 now landmarks handedness

/-- The loop `for (let i = 0; i < results.multiHandLandmarks.length; i++)` of
`onResults`, from the index `i` on, with `clock i` the value of `Date.now()` in
the call of `detectGestures` for the hand `i`. -/
def handLoop (results : FrameResults) (clock : Nat → Int) :
    Nat → List Landmarks → World → Except World World
  | _, [], w => .ok w
  | i, landmarks :: rest, w =>
    match handStep results (clock i) i landmarks w with
    | .error w1 => .error w1
    | .ok w1 => handLoop results clock (i + 1) rest w1

/-- The world that a computation ends in, whether it returned or threw. -/
def worldOf (r : Except World World) : World :=
  match r with
  | .ok w => w
  | .error w => w

/-- The dispatch lines of a trace, in order. -/
def dispatches (effects : List Effect) : List Effect := effects.filter Effect.isDispatch

/-- The first statements of the `try` block of `onResults`: the canvas is cleared
and the camera image drawn, when there is a context. -/
def clearCanvas (w : World) (results : FrameResults) : Except World World :=
  if w.handler.canvasCtx then
    let w1 := (w.emit (.canvas "save")).emit (.canvas "clearRect")
    if results.image then .ok (w1.emit (.canvas "drawImage")) else .error w1
  else .ok w

/-- The `try` block of `onResults`. -/
def onResultsBody (w : World) (results : FrameResults) (clock : Nat → Int) :
    Except World World :=
  match clearCanvas w results with
  | .error w1 => .error w1
  | .ok w1 =>
    let looped : Except World World :=
      match results.multiHandLandmarks with
      | some (landmarks :: rest) => handLoop results clock 0 (landmarks :: rest) w1
      | _ => .ok w1
    match looped with
    | .error w2 => .error w2
    | .ok w2 => if w2.handler.canvasCtx then .ok (w2.emit (.canvas "restore")) else .ok w2

/-- The method `onResults(results)`. -/
def onResults (w : World) (results : FrameResults) (clock : Nat → Int) : World :=
  if !w.handler.isEnabled then w
  else
    match onResultsBody w results clock with
    | .ok w1 => w1
    | .error w1 => w1.emit (.log .processingError "error")

/-! ## Capture controller -/

/-- What the platform answers during one run of `startGestureTracking`. Each
rejection or throw carries the `name` of its error. -/
structure CameraEnv where
  /-- The value of `isAPISupported('mediaDevices')`. -/
  mediaDevices : Bool
  /-- Whether `getUserMedia` resolves with a stream, or the name of the error it
  rejects with. -/
  getUserMedia : Except String Unit
  /-- Whether `getContext('2d')` of the new canvas gives a context. -/
  context2d : Bool
  /-- Whether `window.Camera` is there to be constructed. -/
  cameraClass : Bool
  /-- Whether `camera.start()` resolves, or the name of the error it rejects with. -/
  cameraStart : Except String Unit

/-- The method `createVideoElements`. -/
def createVideoElements (w : World) (env : CameraEnv) : World :=
  let w1 := (w.emit (.appendElement "video")).emit (.appendElement "canvas")
  { w1 with handler := { w1.handler with
      videoElement := true, canvasElement := true, canvasCtx := env.context2d } }

/-- The method `removeVideoElements`. -/
def removeVideoElements (w : World) : World :=
  let w1 : World :=
    if w.handler.videoElement then
      { (w.emit (.removeElement "video")) with
        handler := { w.handler with videoElement := false, videoSrcObject := false } }
    else w
  if w1.handler.canvasElement then
    { (w1.emit (.removeElement "canvas")) with
      handler := { w1.handler with canvasElement := false, canvasCtx := false } }
  else w1

/-- The method `updateGestureStatus(isActive)`. -/
def updateGestureStatus (w : World) (isActive : Bool) : World :=
  w.emit (.updateGestureStatus isActive)

/-- The `try` block of `startGestureTracking`; an error carries the world at the
throw and the `name` of the error. -/
def startGestureTrackingBody (w : World) (env : CameraEnv) : Except (World × String) World :=
  if !env.mediaDevices then .error (w, "Error")
  else
    let w1 := w.emit .getUserMedia
    match env.getUserMedia with
    | .error name => .error (w1, name)
    | .ok _ =>
      let w2 := createVideoElements w1 env
      let w3 : World := { w2 with handler := { w2.handler with videoSrcObject := true } }
      if !env.cameraClass then .error (w3, "TypeError")
      else
        let w4 : World := { (w3.emit .newCamera) with handler := { w3.handler with camera := true } }
        let w5 := w4.emit .cameraStart
        match env.cameraStart with
        | .error name => .error (w5, name)
        | .ok _ =>
          .ok (updateGestureStatus
            (w5.emit (.showNotification "Gesture tracking started" "success" 3000)) true)

/-- The message of the notification in the `catch` branch of `startGestureTracking`. -/
def startErrorMessage (errorName : String) : String :=
  if errorName = "NotAllowedError" then
    "Camera access denied. Please allow camera access for gesture input."
  else "Failed to start gesture tracking"

/-- The method `startGestureTracking`, run to its end without interleaving. -/
def startGestureTracking (w : World) (env : CameraEnv) : World :=
  if !w.handler.isInitialized then
    w.emit (.showNotification "Gesture tracking not available" "error" 3000)
  else
    match startGestureTrackingBody w env with
    | .ok w1 => w1
    | .error (w1, errorName) =>
      let w2 := w1.emit (.log .trackingStartError "error")
      let w3 := w2.emit (.showNotification (startErrorMessage errorName) "error" 3000)
      { w3 with handler := { w3.handler with isEnabled := false } }

/-- The method `stopGestureTracking`. -/
def stopGestureTracking (w : World) : World :=
  let w1 : World :=
    if w.handler.camera then
      { (w.emit .cameraStop) with handler := { w.handler with camera := false } }
    else w
  let w2 : World :=
    if w1.handler.videoElement && w1.handler.videoSrcObject then
      { (w1.emit .stopTracks) with handler := { w1.handler with videoSrcObject := false } }
    else w1
  let w3 := updateGestureStatus (removeVideoElements w2) false
  w3.emit (.showNotification "Gesture tracking stopped" "info" 3000)

/-- The method `toggleGestureInput(enabled)`. -/
def toggleGestureInput (w : World) (enabled : Bool) (env : CameraEnv) : World :=
  let w1 : World := { w with handler := { w.handler with isEnabled := enabled } }
  if enabled then startGestureTracking w1 env else stopGestureTracking w1

/-- A message that the listeners of `setupEventListeners` receive. -/
inductive Message where
  /-- The action `settingsUpdated`, with the value of `settings.gestureInput`. -/
  | settingsUpdated (gestureInput : Bool)
  /-- The action `featureToggled`, with `feature` and `value`. -/
  | featureToggled (feature : String) (value : Bool)

/-- The two listeners registered by `setupEventListeners`. -/
def onMessage (w : World) (message : Message) (env : CameraEnv) : World :=
  match message with
  | .settingsUpdated gestureInput =>
    if gestureInput ≠ w.handler.isEnabled then toggleGestureInput w gestureInput env else w
  | .featureToggled feature value =>
    if feature = "gestureInput" then toggleGestureInput w value env else w

/-- A capture session is active: gesture input is enabled and initialised, the
camera object, the video element with its stream and the canvas are there. -/
def isActiveSession (handler : InklusivGestureHandler) : Bool :=
  handler.isEnabled && handler.isInitialized && handler.camera && handler.videoElement &&
    handler.videoSrcObject && handler.canvasElement

/-- A platform on which every step of `startGestureTracking` succeeds. -/
def workingCamera : CameraEnv :=
  { mediaDevices := true, getUserMedia := .ok (), context2d := true, cameraClass := true,
    cameraStart := .ok () }

/-- A platform on which the user refuses the camera. -/
def deniedCamera : CameraEnv :=
  { mediaDevices := true, getUserMedia := .error "NotAllowedError", context2d := true,
    cameraClass := true, cameraStart := .ok () }

/-- An initialised handler in a page, before any enable request. -/
def initializedWorld (page : Page) : World :=
  { handler := { InklusivGestureHandler.new with isInitialized := true, hands := true },
    page := page, effects := [] }

/-- A page with a button followed by a submit input, the input having the focus. -/
def focusedSubmitPage : Page :=
  { activeElement := some ⟨2, "INPUT", some "submit"⟩,
    elements := [⟨1, "BUTTON", none⟩, ⟨2, "INPUT", some "submit"⟩],
    speechSynthesis := true, inklusivAccessibility := some false,
    inklusivVoiceHandler := some false }

/-- A handler with an active capture session, in a page, with an empty trace. -/
def activeWorld (page : Page) : World :=
  { handler := { InklusivGestureHandler.new with
      isEnabled := true, isInitialized := true, camera := true, hands := true,
      videoElement := true, videoSrcObject := true, canvasElement := true, canvasCtx := true },
    page := page, effects := [] }

/-- A frame with two hands: the index-only hand, labelled right, then a closed
hand, labelled left. -/
def twoHandFrame : FrameResults :=
  { image := true, multiHandLandmarks := some [pointTouchHand, fistHand],
    multiHandedness := some [some "Right", some "Left"] }

/-- A clock that reads 1000 at the first hand of a frame and one millisecond more
at each further hand. -/
def sampleClock (i : Nat) : Int := 1000 + i

/-- An element that the fallback of the ok action may click, in the words of the
specification: a button, a submit input or a button input. -/
def isButtonLike (e : Element) : Prop :=
  e.tagName = "BUTTON" ∨
    (e.tagName = "INPUT" ∧ (e.typeAttr = some "submit" ∨ e.typeAttr = some "button"))

/-- A platform on which the stream is acquired and `camera.start()` rejects. -/
def startFailsCamera : CameraEnv :=
  { mediaDevices := true, getUserMedia := .ok (), context2d := true, cameraClass := true,
    cameraStart := .error "NotReadableError" }

/-! ## Settings -/

/-- A value of a settings mapping, as JSON gives it: a boolean, a string, a
number, `null`, or an array or object, kept as its JSON text. -/
inductive SettingValue where
  | bool (b : Bool)
  | str (s : String)
  | num (n : ℚ)
  | null
  | composite (json : String)
deriving DecidableEq, Repr

/-- A settings object: its own properties, in insertion order. -/
abbrev Settings := List (String × SettingValue)

/-- The expression `settings[key]`; `none` is `undefined`. -/
def getKey (settings : Settings) (key : String) : Option SettingValue := settings.lookup key

/-- The test `key in settings`, on an object without inherited settings keys. -/
def hasKey (settings : Settings) (key : String) : Bool := (settings.lookup key).isSome

/-- The assignment `settings[key] = value` for a key other than `__proto__`: an
existing property keeps its place, a new one is added at the end. -/
def setKey (settings : Settings) (key : String) (value : SettingValue) : Settings :=
  if hasKey settings key then
    settings.map (fun p => if p.1 = key then (key, value) else p)
  else settings ++ [(key, value)]

/-- The assignment `settings[key] = value` for any key: the key `__proto__` reaches
the setter inherited from `Object.prototype` and creates no property. -/
def assignKey (settings : Settings) (key : String) (value : SettingValue) : Settings :=
  if key = "__proto__" then settings else setKey settings key value

/-- JavaScript truthiness of `settings[key]`. -/
def truthy : Option SettingValue → Bool
  | none => false
  | some (.bool b) => b
  | some (.str s) => decide (s ≠ "")
  | some (.num n) => decide (n ≠ 0)
  | some .null => false
  | some (.composite _) => true

/-- The call `s.startsWith(p)`. -/
def startsWith (s p : String) : Bool := p.data.isPrefixOf s.data

/-- The call `s.substring(n)`. -/
def substringFrom (s : String) (n : Nat) : String := ⟨s.data.drop n⟩

/-- The call `s.includes(p)` on character lists. -/
def includesChars : List Char → List Char → Bool
  | [], p => p.isEmpty
  | c :: cs, p => p.isPrefixOf (c :: cs) || includesChars cs p

/-- The call `s.includes(p)`. -/
def includes (s p : String) : Bool := includesChars s.data p.data

/-! ## Background service -/

/-- A tab as `chrome.tabs.query` returns it; `url` is `none` when the tab object
carries no `url`. -/
structure Tab where
  id : Nat
  url : Option String
deriving DecidableEq, Repr

/-- The message `{ action: 'featureToggled', data: { feature, value } }`. -/
structure FeatureToggled where
  feature : String
  value : SettingValue
deriving DecidableEq, Repr

/-- What the background service works on: the stored `inklusivSettings` (`none`
when nothing is stored), the open tabs, and the messages sent to tabs so far, as
pairs of tab id and message. The storage calls are taken to resolve. -/
structure BackgroundState where
  storage : Option Settings
  tabs : List Tab
  sent : List (Nat × FeatureToggled)
deriving DecidableEq, Repr

/-- The method `getSettings` of the background: `result.inklusivSettings || {}`. -/
def InklusivBackground.getSettings (st : BackgroundState) : Settings :=
  match st.storage with
  | some settings => settings
  | none => []

/-- The method `saveSettings(settings)` of the background. -/
def InklusivBackground.saveSettings (st : BackgroundState) (settings : Settings) :
    BackgroundState :=
  { st with storage := some settings }

/-- The calls of `chrome.tabs.sendMessage` made by the `tabs.map` of
`broadcastToAllTabs`: reading `tab.url.startsWith` of a tab without `url` throws,
the `catch` of the method takes over and the tabs after it get nothing. -/
def broadcastSends (message : FeatureToggled) : List Tab → List (Nat × FeatureToggled)
  | [] => []
  | tab :: rest =>
    match tab.url with
    | none => []
    | some url =>
      if !startsWith url "chrome://" then (tab.id, message) :: broadcastSends message rest
      else broadcastSends message rest

/-- The method `broadcastToAllTabs('featureToggled', data)`. -/
def InklusivBackground.broadcastToAllTabs (st : BackgroundState) (message : FeatureToggled) :
    BackgroundState :=
  { st with sent := st.sent ++ broadcastSends message st.tabs }

/-- The method `toggleFeature(feature, value)` of the background. -/
def InklusivBackground.toggleFeature (st : BackgroundState) (feature : String)
    (value : SettingValue) : BackgroundState :=
  let settings := InklusivBackground.getSettings st
  let settings := assignKey settings feature value
  let st1 := InklusivBackground.saveSettings st settings
  InklusivBackground.broadcastToAllTabs st1 ⟨feature, value⟩

/-! ## Voice commands -/

/-- The phrases registered by `setupCommands`, in registration order. -/
def commandPhrases : List String :=
  ["scroll up", "scroll down", "scroll to top", "scroll to bottom", "go back", "go forward",
   "refresh page", "focus search", "focus email", "focus password", "focus next field",
   "focus previous field", "submit form", "clear field", "select all", "click submit",
   "click login", "click sign up", "click next", "click previous", "toggle dark mode",
   "toggle high contrast", "read page", "stop reading", "help", "voice help"]

/-- What one call of `processSpeechCommand` runs. -/
inductive VoiceAction where
  /-- The handler registered under this phrase. -/
  | command (phrase : String)
  /-- The call `typeText(text)`. -/
  | typeText (text : String)
  /-- The call `performSearch(query)`. -/
  | performSearch (query : String)
  /-- The call `clickByText(target)`. -/
  | clickByText (target : String)
  /-- No handler: the notification "Command not recognized". -/
  | notRecognized (transcript : String)
deriving DecidableEq, Repr

/-- Whether a handler runs. -/
def VoiceAction.isHandler : VoiceAction → Bool
  | .notRecognized _ => false
  | _ => true

/-- The method `processSpeechCommand(transcript)` over the registered phrases
`commands`, with `fieldFocused` the value of
`this.currentField && this.isInputElement(this.currentField)`. -/
def processSpeechCommand (commands : List String) (fieldFocused : Bool) (transcript : String) :
    VoiceAction :=
  if commands.contains transcript then .command transcript
  else
    match commands.find? (fun command => includes transcript command) with
    | some command => .command command
    | none =>
      if startsWith transcript "type " then .typeText (substringFrom transcript 5)
      else if startsWith transcript "search for " then
        .performSearch (substringFrom transcript 11)
      else if startsWith transcript "click " then .clickByText (substringFrom transcript 6)
      else if fieldFocused then .typeText transcript
      else .notRecognized transcript

/-! ## Widget -/

/-- The sizes that the widget reads: `window.innerWidth`, `window.innerHeight`,
and `offsetWidth`, `offsetHeight` of the widget element. -/
structure WidgetGeometry where
  innerWidth : ℚ
  innerHeight : ℚ
  offsetWidth : ℚ
  offsetHeight : ℚ

/-- The fields of `InklusivWidget` that the specification speaks of. -/
structure InklusivWidget where
  isExpanded : Bool
  isDragging : Bool
  dragOffsetX : ℚ
  dragOffsetY : ℚ
  positionX : ℚ
  positionY : ℚ
  settings : Settings

/-- The method `drag(event)`, for an event at `(clientX, clientY)`. The style
update of `updateWidgetPosition` copies the position and is left out. -/
def InklusivWidget.drag (widget : InklusivWidget) (g : WidgetGeometry) (clientX clientY : ℚ) :
    InklusivWidget :=
  if !widget.isDragging then widget
  else
    let x := clientX - widget.dragOffsetX
    let y := clientY - widget.dragOffsetY
    let maxX := g.innerWidth - g.offsetWidth
    let maxY := g.innerHeight - g.offsetHeight
    { widget with positionX := max 0 (min x maxX), positionY := max 0 (min y maxY) }

/-- The method `adjustPositionOnResize`. -/
def InklusivWidget.adjustPositionOnResize (widget : InklusivWidget) (g : WidgetGeometry) :
    InklusivWidget :=
  { widget with
    positionX := min widget.positionX (g.innerWidth - g.offsetWidth),
    positionY := min widget.positionY (g.innerHeight - g.offsetHeight) }

/-- The method `toggleFeature(feature)` of the widget, with `success` the answer
of `window.inklusivUtils.toggleFeature`; returns the widget and its calls. -/
def InklusivWidget.toggleFeature (widget : InklusivWidget) (feature : String) (success : Bool) :
    InklusivWidget × List Effect :=
  let currentValue : SettingValue :=
    if truthy (getKey widget.settings feature) then (getKey widget.settings feature).getD (.bool false)
    else .bool false
  let newValue : Bool := !truthy (some currentValue)
  let w1 : InklusivWidget := { widget with settings := setKey widget.settings feature (.bool newValue) }
  let calls : List Effect := [.toggleFeature feature newValue]
  if success then
    (w1, calls ++ [.updateButtonState feature newValue, .animateStatusChange feature])
  else
    ({ w1 with settings := setKey w1.settings feature currentValue },
      calls ++ [.showNotification "Failed to save setting" "error" 3000])

/-! ## Popup -/

/-- The object `defaultSettings` of the popup. -/
def defaultSettings : Settings :=
  [("voiceInput", .bool false), ("gestureInput", .bool false), ("dyslexiaFont", .bool false),
   ("textToSpeech", .bool false), ("colorblindMode", .str "none"), ("adhdMode", .bool false),
   ("highContrast", .bool false), ("darkMode", .bool false),
   ("widgetPosition", .str "bottom-right")]

/-- One round of the `forEach` of `importSettings`. -/
def importKey (defaults importedSettings : Settings) (validSettings : Settings) (key : String) :
    Settings :=
  if hasKey importedSettings key then
    setKey validSettings key ((getKey importedSettings key).getD .null)
  else setKey validSettings key ((getKey defaults key).getD .null)

/-- The object `validSettings` that `importSettings` builds from the parsed
object `importedSettings` and assigns to `this.settings`. -/
def InklusivPopup.importSettings (defaults importedSettings : Settings) : Settings :=
  (defaults.map Prod.fst).foldl (importKey defaults importedSettings) []

/-- The index-only hand with another wrist (landmark 0) and another depth of the
thumb tip (landmark 4). -/
def pointTouchHandVariant : Landmarks :=
  handWith (mkPoint 0 0)
    [(6, mkPoint 0 1), (0, ⟨some 5, some 7, none⟩), (4, ⟨some 0, some 0, some 9⟩)]

/-- A closed hand with every landmark at (0, 0) but the index tip, which is at the
doubles (0.0325, 0.03799671038392666): the exact distance of the tips is below
0.05, the computed distance is the double 0.05. -/
def nearHand : Landmarks :=
  handWith (mkPoint 0 0)
    [(8, mkPoint (mkRat 1170935903116329 36028797018963968)
      (mkRat 684487882905427 18014398509481984))]

/-- A closed hand with the thumb joint at (1, 0), the thumb tip at the doubles
(0.8961994660064108, 0.05748236799480899), the index tip at the doubles
(0.8888351038129854, 0.008027679951267085) and the rest at (0, 0): the exact
distance of the tips is above 0.05, the computed distance is the double
0.049999999999999996. -/
def farHand : Landmarks :=
  handWith (mkPoint 0 0)
    [(3, mkPoint 1 0),
     (4, mkPoint (mkRat 4036123581156109 4503599627370496)
      (mkRat 517755142163591 9007199254740992)),
     (8, mkPoint (mkRat 4002957442325977 4503599627370496)
      (mkRat 2313821211979267 288230376151711744))]

/-- A tab whose address does not start with `chrome://`. -/
def isPageTab (tab : Tab) : Bool :=
  match tab.url with
  | some url => !startsWith url "chrome://"
  | none => false

/-- A background with one stored setting and three tabs, the second of which
carries no `url`. -/
def mixedTabsBackground : BackgroundState :=
  { storage := some [("darkMode", .bool false)],
    tabs := [⟨1, some "https://a.example/"⟩, ⟨2, none⟩, ⟨3, some "https://b.example/"⟩],
    sent := [] }

/-- A page with a button followed by a link, the link having the focus. -/
def focusedLinkPage : Page :=
  { activeElement := some ⟨2, "A", none⟩,
    elements := [⟨1, "BUTTON", none⟩, ⟨2, "A", none⟩],
    speechSynthesis := true, inklusivAccessibility := some false,
    inklusivVoiceHandler := some false }

/-- A page with nothing focused and a paragraph, a submit input and a button. -/
def submitFirstPage : Page :=
  { activeElement := none,
    elements := [⟨1, "P", none⟩, ⟨2, "INPUT", some "submit"⟩, ⟨3, "BUTTON", none⟩],
    speechSynthesis := true, inklusivAccessibility := some false,
    inklusivVoiceHandler := some false }

/-- A widget that is being dragged, at the origin, with no settings. -/
def draggedWidget : InklusivWidget :=
  { isExpanded := false, isDragging := true, dragOffsetX := 0, dragOffsetY := 0,
    positionX := 0, positionY := 0, settings := [] }

/-- A widget left of the viewport, as the constructor places it in a viewport
50 pixels wide. -/
def offscreenWidget : InklusivWidget :=
  { isExpanded := false, isDragging := false, dragOffsetX := 0, dragOffsetY := 0,
    positionX := -30, positionY := 0, settings := [] }

/-- A widget whose darkMode setting is the empty string. -/
def emptyStringWidget : InklusivWidget :=
  { isExpanded := false, isDragging := false, dragOffsetX := 0, dragOffsetY := 0,
    positionX := 0, positionY := 0, settings := [("darkMode", .str ""), ("voiceInput", .bool true)] }

/-- The widget is inside the viewport. -/
def withinViewport (widget : InklusivWidget) (g : WidgetGeometry) : Prop :=
  0 ≤ widget.positionX ∧ widget.positionX ≤ g.innerWidth - g.offsetWidth ∧
    0 ≤ widget.positionY ∧ widget.positionY ≤ g.innerHeight - g.offsetHeight

/-- The value that `importSettings` gives to a key, in the words of the
specification: the imported value when the imported object has the key, and the
default value otherwise. -/
def importedOrDefault (defaults importedSettings : Settings) (key : String) :
    Option SettingValue :=
  if hasKey importedSettings key then getKey importedSettings key else getKey defaults key

/-- An imported object with one default key and one foreign key. -/
def sampleImport : Settings := [("darkMode", .bool true), ("theme", .str "blue")]

/-! ## Helper lemmas -/

theorem timesTwoPow_nonneg (m : ℕ) (e : ℤ) : 0 ≤ timesTwoPow m e := by
  unfold timesTwoPow
  split
  · rw [Rat.mkRat_eq_div]; positivity
  · rw [Rat.mkRat_eq_div]; positivity

/-- Rounding to the nearest double keeps a number that is not negative so. -/
theorem roundDouble_nonneg {q : ℚ} (h : 0 ≤ q) : 0 ≤ roundDouble q := by
  unfold roundDouble
  split
  · exact le_refl 0
  · simp only [not_lt.mpr h, if_false]
    exact timesTwoPow_nonneg _ _

theorem roundDouble_zero : roundDouble 0 = 0 := by simp [roundDouble]

theorem sqrtDouble_zero : sqrtDouble 0 = 0 := by simp [sqrtDouble]

theorem computedDistance_self (x y : ℚ) : computedDistance x y x y = 0 := by
  simp [computedDistance, roundDouble_zero, sqrtDouble_zero]

theorem double005_pos : 0 < double005 := by decide!

/-- The argument of `Math.sqrt` in `isOKGesture` is never negative, so the call
never yields `NaN` on numbers. -/
theorem jsSqrt_sum (a b : ℚ) :
    jsSqrt (some (roundDouble (roundDouble (a * a) + roundDouble (b * b))))
      = some (sqrtDouble (roundDouble (roundDouble (a * a) + roundDouble (b * b)))) := by
  have h : ¬ roundDouble (roundDouble (a * a) + roundDouble (b * b)) < 0 :=
    not_lt.mpr (roundDouble_nonneg (add_nonneg (roundDouble_nonneg (mul_self_nonneg a))
      (roundDouble_nonneg (mul_self_nonneg b))))
  simp only [jsSqrt, h, if_false]

theorem jsLt_eq_true_iff (a b : Coord) :
    jsLt a b = true ↔ ∃ p q : ℚ, a = some p ∧ b = some q ∧ p < q := by
  cases a <;> cases b <;> simp [jsLt]

theorem landmarkAt_of_isHand21 {landmarks : Landmarks} (h : isHand21 landmarks = true)
    {i : Nat} (hi : i < 21) : landmarkAt landmarks i = some (pt landmarks i) := by
  cases landmarks with
  | none => simp [isHand21] at h
  | some l =>
    simp only [isHand21, Bool.and_eq_true, beq_iff_eq, List.all_eq_true] at h
    obtain ⟨hlen, hall⟩ := h
    have hlt : i < l.length := by omega
    have hmem : l[i] ∈ l := List.getElem_mem hlt
    have hs := hall _ hmem
    cases hli : l[i] with
    | none => simp [hli] at hs
    | some p => simp [pt, landmarkAt, List.getElem?_eq_getElem hlt, hli]

theorem landmarkAt_handWith (base : Landmark) (changes : List (Nat × Landmark)) (i : Nat)
    (hi : i < 21) : landmarkAt (handWith base changes) i = some ((changes.lookup i).getD base) := by
  simp [landmarkAt, handWith, List.getElem?_range, hi]

theorem landmarkAt_constHand (p : Landmark) (i : Nat) (hi : i < 21) :
    landmarkAt (constHand p) i = some p := by
  show ((List.replicate 21 (some p)).get? i).join = some p
  rw [List.get?_eq_getElem?, List.getElem?_replicate]
  simp [hi]

/-- On a hand of 21 landmarks the array `fingersUp` is the extension vector, as bits. -/
theorem computeFingersUp_of_hand {landmarks : Landmarks} (h : isHand21 landmarks = true) :
    computeFingersUp landmarks
      = some ((extensionVector landmarks).map (fun b => if b then 1 else 0)) := by
  simp only [computeFingersUp, pushFinger, fingerTips, fingerPips, List.getD_cons_succ,
    List.getD_cons_zero, landmarkAt_of_isHand21 h (by decide : 4 < 21),
    landmarkAt_of_isHand21 h (by decide : 3 < 21), landmarkAt_of_isHand21 h (by decide : 8 < 21),
    landmarkAt_of_isHand21 h (by decide : 6 < 21), landmarkAt_of_isHand21 h (by decide : 12 < 21),
    landmarkAt_of_isHand21 h (by decide : 10 < 21), landmarkAt_of_isHand21 h (by decide : 16 < 21),
    landmarkAt_of_isHand21 h (by decide : 14 < 21), landmarkAt_of_isHand21 h (by decide : 20 < 21),
    landmarkAt_of_isHand21 h (by decide : 18 < 21), extensionVector, Option.some_bind,
    Option.bind_eq_bind, List.foldlM_cons, List.foldlM_nil, Option.pure_def]
  cases jsGt (pt landmarks 4).x (pt landmarks 3).x <;>
  cases jsLt (pt landmarks 8).y (pt landmarks 6).y <;>
  cases jsLt (pt landmarks 12).y (pt landmarks 10).y <;>
  cases jsLt (pt landmarks 16).y (pt landmarks 14).y <;>
  cases jsLt (pt landmarks 20).y (pt landmarks 18).y <;> rfl

theorem isOKGesture_of_hand {landmarks : Landmarks} (h : isHand21 landmarks = true) :
    isOKGesture landmarks = tipsTouch landmarks := by
  simp only [isOKGesture, isOKGestureBody, landmarkAt_of_isHand21 h (by decide : 4 < 21),
    landmarkAt_of_isHand21 h (by decide : 8 < 21), tipsTouch]
  generalize pt landmarks 4 = p4
  generalize pt landmarks 8 = p8
  obtain ⟨x4, y4, z4⟩ := p4
  obtain ⟨x8, y8, z8⟩ := p8
  cases x4 <;> cases y4 <;> cases x8 <;> cases y8 <;>
    simp only [jsAdd, jsSub, jsPow2, jsSqrt_sum, computedDistance,
      Option.some_bind, Option.bind_eq_bind, Option.pure_def] <;> rfl

theorem classifyFingers_bits (landmarks : Landmarks) (up : List Bool) (hup : up.length = 5) :
    classifyFingers landmarks (up.map (fun b => if b then 1 else 0))
      = decisionList up (up.count true) (isOKGesture landmarks) := by
  match up, hup with
  | [a, b, c, d, e], _ =>
    unfold classifyFingers decisionList
    generalize isOKGesture landmarks = ok
    cases ok <;> cases a <;> cases b <;> cases c <;> cases d <;> cases e <;> decide
theorem jsGt_eq_true_iff (a b : Coord) : jsGt a b = true ↔ numLt b a := jsLt_eq_true_iff b a

theorem isHand21_of_isWellFormed {landmarks : Landmarks} (h : isWellFormed landmarks = true) :
    isHand21 landmarks = true := by
  cases landmarks with
  | none => simp [isWellFormed] at h
  | some l =>
    simp only [isWellFormed, Bool.and_eq_true, beq_iff_eq, List.all_eq_true] at h
    simp only [isHand21, Bool.and_eq_true, beq_iff_eq, List.all_eq_true]
    refine ⟨h.1, fun e he => ?_⟩
    have := h.2 e he
    cases e with
    | none => simp at this
    | some p => rfl

/-- On a hand of 21 landmarks `classifyGesture` is the decision list of the
specification. -/
theorem classifyGesture_of_hand {landmarks : Landmarks} (h : isHand21 landmarks = true) :
    classifyGesture landmarks
      = decisionList (extensionVector landmarks) ((extensionVector landmarks).count true)
          (tipsTouch landmarks) := by
  unfold classifyGesture classifyGestureBody
  rw [computeFingersUp_of_hand h]
  simp only [Option.some_bind, Option.bind_eq_bind, Option.pure_def]
  rw [classifyFingers_bits landmarks _ (by simp [extensionVector]), isOKGesture_of_hand h]

theorem isHand21_handWith (base : Landmark) (changes : List (Nat × Landmark)) :
    isHand21 (handWith base changes) = true := by
  simp [isHand21, handWith]

theorem isHand21_constHand (p : Landmark) : isHand21 (constHand p) = true := by
  simp [isHand21, constHand]

theorem pt_handWith (base : Landmark) (changes : List (Nat × Landmark)) (i : Nat)
    (hi : i < 21) : pt (handWith base changes) i = (changes.lookup i).getD base := by
  simp [pt, landmarkAt_handWith base changes i hi]

theorem pt_constHand (p : Landmark) (i : Nat) (hi : i < 21) : pt (constHand p) i = p := by
  simp [pt, landmarkAt_constHand p i hi]

theorem extensionVector_pointTouchHand :
    extensionVector pointTouchHand = [false, true, false, false, false] := by
  simp [extensionVector, pointTouchHand, pt_handWith, List.lookup, jsLt, jsGt, mkPoint]

theorem tipsTouch_pointTouchHand : tipsTouch pointTouchHand = true := by decide!

theorem extensionVector_openTouchHand :
    extensionVector openTouchHand = [true, true, true, true, true] := by
  simp [extensionVector, openTouchHand, pt_handWith, List.lookup, jsLt, jsGt, mkPoint]

theorem tipsTouch_openTouchHand : tipsTouch openTouchHand = true := by decide!

theorem extensionVector_allZeroHand :
    extensionVector allZeroHand = [false, false, false, false, false] := by
  simp [extensionVector, allZeroHand, pt_constHand, jsLt, jsGt, mkPoint]

theorem tipsTouch_allZeroHand : tipsTouch allZeroHand = true := by decide!

theorem extensionVector_fistHand :
    extensionVector fistHand = [false, false, false, false, false] := by
  simp [extensionVector, fistHand, pt_handWith, List.lookup, jsLt, jsGt, mkPoint]

theorem tipsTouch_fistHand : tipsTouch fistHand = false := by decide!

theorem extensionVector_openHand :
    extensionVector openHand = [true, true, true, true, true] := by
  simp [extensionVector, openHand, pt_handWith, List.lookup, jsLt, jsGt, mkPoint]

theorem tipsTouch_openHand : tipsTouch openHand = false := by decide!

theorem extensionVector_emptyObjectsHand :
    extensionVector emptyObjectsHand = [false, false, false, false, false] := by
  simp [extensionVector, emptyObjectsHand, pt_constHand, jsLt, jsGt]

theorem tipsTouch_emptyObjectsHand : tipsTouch emptyObjectsHand = false := by decide!

theorem isHand21_pointTouchHand : isHand21 pointTouchHand = true := isHand21_handWith _ _

theorem isHand21_openTouchHand : isHand21 openTouchHand = true := isHand21_handWith _ _

theorem isHand21_fistHand : isHand21 fistHand = true := isHand21_handWith _ _

theorem isHand21_openHand : isHand21 openHand = true := isHand21_handWith _ _

theorem isHand21_allZeroHand : isHand21 allZeroHand = true := isHand21_constHand _

theorem isHand21_emptyObjectsHand : isHand21 emptyObjectsHand = true := isHand21_constHand _

theorem classifyGesture_pointTouchHand : classifyGesture pointTouchHand = "point" := by
  rw [classifyGesture_of_hand isHand21_pointTouchHand, extensionVector_pointTouchHand,
    tipsTouch_pointTouchHand]
  decide

theorem classifyGesture_allZeroHand : classifyGesture allZeroHand = "ok" := by
  rw [classifyGesture_of_hand isHand21_allZeroHand, extensionVector_allZeroHand,
    tipsTouch_allZeroHand]
  decide

theorem classifyGesture_openTouchHand : classifyGesture openTouchHand = "ok" := by
  rw [classifyGesture_of_hand isHand21_openTouchHand, extensionVector_openTouchHand,
    tipsTouch_openTouchHand]
  decide

theorem classifyGesture_emptyObjectsHand : classifyGesture emptyObjectsHand = "fist" := by
  rw [classifyGesture_of_hand isHand21_emptyObjectsHand, extensionVector_emptyObjectsHand,
    tipsTouch_emptyObjectsHand]
  decide

theorem isHand21_nearHand : isHand21 nearHand = true := isHand21_handWith _ _

theorem isHand21_farHand : isHand21 farHand = true := isHand21_handWith _ _

theorem extensionVector_nearHand :
    extensionVector nearHand = [false, false, false, false, false] := by decide!

theorem extensionVector_farHand :
    extensionVector farHand = [false, false, false, false, false] := by decide!

theorem closerExact_nearHand : closerExact nearHand = true := by decide!

theorem closerExact_farHand : closerExact farHand = false := by decide!

theorem tipsTouch_nearHand : tipsTouch nearHand = false := by decide!

theorem tipsTouch_farHand : tipsTouch farHand = true := by decide!

theorem classifyGesture_nearHand : classifyGesture nearHand = "fist" := by
  rw [classifyGesture_of_hand isHand21_nearHand, extensionVector_nearHand, tipsTouch_nearHand]
  decide

theorem classifyGesture_farHand : classifyGesture farHand = "ok" := by
  rw [classifyGesture_of_hand isHand21_farHand, extensionVector_farHand, tipsTouch_farHand]
  decide

/-! ## Properties of the classifier -/

/-- C1, as stated, fails: the closed hand whose index tip is at the doubles
(0.0325, 0.03799671038392666) and whose other landmarks are at (0, 0) has its five
extension bits false and its thumb tip and index tip closer than 0.05, so the
decision list with the flag read as the exact distance gives ok; classifyGesture
returns fist, because the distance it computes in double arithmetic is the double
0.05 itself. -/
theorem decision_list_exact_counterexample :
    isHand21 nearHand = true ∧
      extensionVector nearHand = [false, false, false, false, false] ∧
      closerExact nearHand = true ∧
      decisionList (extensionVector nearHand) ((extensionVector nearHand).count true)
        (closerExact nearHand) = "ok" ∧
      classifyGesture nearHand = "fist" ∧ classifyGesture nearHand ≠ "ok" := by
  refine ⟨isHand21_nearHand, extensionVector_nearHand, closerExact_nearHand, ?_,
    classifyGesture_nearHand, ?_⟩
  · rw [extensionVector_nearHand, closerExact_nearHand]; decide
  · rw [classifyGesture_nearHand]; decide

/-- C1, amended: for every hand of 21 landmarks, classifyGesture equals the
first-match-wins decision list over the extension vector, its count and the flag
ok (point, then peace, then ok, then fist, open, thumbsup, else unknown), where
the flag ok is the result of isOKGesture: the distance of the thumb tip and the
index tip as computed in double arithmetic is below the double 0.05; in
particular an index-only or index+middle hand whose thumb and index tips touch is
classified point or peace, not ok. -/
theorem classifyGesture_decision_list (landmarks : Landmarks)
    (h : isHand21 landmarks = true) :
    classifyGesture landmarks
        = decisionList (extensionVector landmarks) ((extensionVector landmarks).count true)
            (tipsTouch landmarks)
      ∧ (tipsTouch landmarks = true →
          extensionVector landmarks = [false, true, false, false, false] →
          classifyGesture landmarks = "point")
      ∧ (tipsTouch landmarks = true →
          extensionVector landmarks = [false, true, true, false, false] →
          classifyGesture landmarks = "peace")
      ∧ tipsTouch landmarks = isOKGesture landmarks := by
  have key := classifyGesture_of_hand h
  refine ⟨key, fun ht hv => ?_, fun ht hv => ?_, (isOKGesture_of_hand h).symm⟩
  · rw [key, hv, ht]; decide
  · rw [key, hv, ht]; decide

/-- Witness of the amended C1 at the index-only hand whose thumb tip lies on the
index tip. -/
theorem classifyGesture_decision_list_witness :
    isHand21 pointTouchHand = true ∧ classifyGesture pointTouchHand = "point" :=
  ⟨isHand21_pointTouchHand,
    (classifyGesture_decision_list pointTouchHand isHand21_pointTouchHand).2.1
      tipsTouch_pointTouchHand extensionVector_pointTouchHand⟩

/-- C2, as stated, fails: the index-only hand whose thumb tip lies on the index
tip (distance 0) is a hand of 21 landmarks with touching tips, and it is
classified point, not ok. -/
theorem ok_override_counterexample :
    isHand21 pointTouchHand = true ∧ tipsTouch pointTouchHand = true ∧
      classifyGesture pointTouchHand = "point" ∧ classifyGesture pointTouchHand ≠ "ok" := by
  refine ⟨isHand21_pointTouchHand, tipsTouch_pointTouchHand, classifyGesture_pointTouchHand, ?_⟩
  rw [classifyGesture_pointTouchHand]
  decide

/-- C2, amended: for all hands of 21 landmarks for which the distance of the thumb
tip and the index tip, as isOKGesture computes it in double arithmetic, is below
the double 0.05, and whose extension vector is neither index-only (point) nor
index+middle-only (peace), classifyGesture returns ok, whatever the other
fingers do. -/
theorem classifyGesture_ok_unless_point_peace (landmarks : Landmarks)
    (h : isHand21 landmarks = true) (htouch : tipsTouch landmarks = true)
    (hpoint : extensionVector landmarks ≠ [false, true, false, false, false])
    (hpeace : extensionVector landmarks ≠ [false, true, true, false, false]) :
    classifyGesture landmarks = "ok" := by
  rw [classifyGesture_of_hand h, htouch]
  revert hpoint hpeace
  unfold extensionVector
  generalize jsGt (pt landmarks 4).x (pt landmarks 3).x = a
  generalize jsLt (pt landmarks 8).y (pt landmarks 6).y = b
  generalize jsLt (pt landmarks 12).y (pt landmarks 10).y = c
  generalize jsLt (pt landmarks 16).y (pt landmarks 14).y = d
  generalize jsLt (pt landmarks 20).y (pt landmarks 18).y = e
  cases a <;> cases b <;> cases c <;> cases d <;> cases e <;> decide

/-- Witness of the amended C2 at the all-zero hand. -/
theorem classifyGesture_ok_unless_point_peace_witness :
    isHand21 allZeroHand = true ∧ tipsTouch allZeroHand = true ∧
      classifyGesture allZeroHand = "ok" :=
  ⟨isHand21_allZeroHand, tipsTouch_allZeroHand,
    classifyGesture_ok_unless_point_peace allZeroHand isHand21_allZeroHand
      tipsTouch_allZeroHand (by rw [extensionVector_allZeroHand]; decide)
      (by rw [extensionVector_allZeroHand]; decide)⟩

/-- C3, as stated, fails: the all-zero hand has its five extension bits false and
is classified ok, not fist; and a hand with its five bits true whose thumb tip
lies on the index tip is classified ok, not open. -/
theorem fist_open_counterexample :
    (isHand21 allZeroHand = true ∧
      extensionVector allZeroHand = [false, false, false, false, false] ∧
      classifyGesture allZeroHand = "ok" ∧ classifyGesture allZeroHand ≠ "fist") ∧
    (isHand21 openTouchHand = true ∧
      extensionVector openTouchHand = [true, true, true, true, true] ∧
      classifyGesture openTouchHand = "ok" ∧ classifyGesture openTouchHand ≠ "open") := by
  refine ⟨⟨isHand21_allZeroHand, extensionVector_allZeroHand, classifyGesture_allZeroHand, ?_⟩,
    ⟨isHand21_openTouchHand, extensionVector_openTouchHand, classifyGesture_openTouchHand, ?_⟩⟩
  · rw [classifyGesture_allZeroHand]; decide
  · rw [classifyGesture_openTouchHand]; decide

/-- C3, amended: for all hands of 21 landmarks for which the distance of the thumb
tip and the index tip, as isOKGesture computes it in double arithmetic, is not
below the double 0.05, classifyGesture returns fist when the five extension bits
are all false and open when they are all true. -/
theorem classifyGesture_fist_open (landmarks : Landmarks) (h : isHand21 landmarks = true)
    (hfar : tipsTouch landmarks = false) :
    (extensionVector landmarks = [false, false, false, false, false] →
        classifyGesture landmarks = "fist")
      ∧ (extensionVector landmarks = [true, true, true, true, true] →
        classifyGesture landmarks = "open") := by
  have key := classifyGesture_of_hand h
  refine ⟨fun hv => ?_, fun hv => ?_⟩
  · rw [key, hv, hfar]; decide
  · rw [key, hv, hfar]; decide

/-- Witness of the amended C3 at a closed hand and at an open hand. -/
theorem classifyGesture_fist_open_witness :
    (isHand21 fistHand = true ∧ tipsTouch fistHand = false ∧
      classifyGesture fistHand = "fist") ∧
    (isHand21 openHand = true ∧ tipsTouch openHand = false ∧
      classifyGesture openHand = "open") :=
  ⟨⟨isHand21_fistHand, tipsTouch_fistHand,
      (classifyGesture_fist_open fistHand isHand21_fistHand tipsTouch_fistHand).1
        extensionVector_fistHand⟩,
    ⟨isHand21_openHand, tipsTouch_openHand,
      (classifyGesture_fist_open openHand isHand21_openHand tipsTouch_openHand).2
        extensionVector_openHand⟩⟩

theorem computeFingersUp_reads (landmarks : Landmarks) (v : List Nat)
    (h : computeFingersUp landmarks = some v) (i : Nat) (hi : i ∈ neededIndices) :
    ∃ p, landmarkAt landmarks i = some p := by
  simp only [computeFingersUp, pushFinger, fingerTips, fingerPips, List.getD_cons_succ,
    List.getD_cons_zero, Option.bind_eq_bind, List.foldlM_cons, List.foldlM_nil, Option.pure_def,
    Option.bind_eq_some] at h
  obtain ⟨p4, h4, p3, h3, _, ⟨p8, h8, p6, h6, _⟩, _, ⟨p12, h12, p10, h10, _⟩, _,
    ⟨p16, h16, p14, h14, _⟩, _, ⟨p20, h20, p18, h18, _⟩, _⟩ := h
  simp only [neededIndices, List.mem_cons, List.mem_singleton, List.not_mem_nil, or_false] at hi
  rcases hi with rfl | rfl | rfl | rfl | rfl | rfl | rfl | rfl | rfl | rfl
  exacts [⟨_, h3⟩, ⟨_, h4⟩, ⟨_, h6⟩, ⟨_, h8⟩, ⟨_, h10⟩, ⟨_, h12⟩, ⟨_, h14⟩, ⟨_, h16⟩,
    ⟨_, h18⟩, ⟨_, h20⟩]

/-- When a landmark that classification reads is missing, the `try` block throws. -/
theorem classifyGestureBody_missing (landmarks : Landmarks) (i : Nat) (hi : i ∈ neededIndices)
    (hmiss : landmarkAt landmarks i = none) : classifyGestureBody landmarks = none := by
  cases hc : computeFingersUp landmarks with
  | none => simp [classifyGestureBody, hc]
  | some v =>
    obtain ⟨p, hp⟩ := computeFingersUp_reads landmarks v hc i hi
    rw [hmiss] at hp
    cases hp

theorem landmarkAt_none (i : Nat) : landmarkAt none i = none := rfl

theorem landmarkAt_short (l : List (Option Landmark)) (i : Nat) (hi : l.length ≤ i) :
    landmarkAt (some l) i = none := by
  simp [landmarkAt, List.getElem?_eq_none hi]

theorem bit_eq_one_iff (b : Bool) : (if b = true then 1 else 0 : Nat) = 1 ↔ b = true := by
  cases b <;> simp

theorem decisionList_mem (up : List Bool) (n : Nat) (ok : Bool) :
    decisionList up n ok ∈ gestureLabels := by
  unfold decisionList gestureLabels
  split_ifs <;> simp

theorem classifyGesture_mem (landmarks : Landmarks) : classifyGesture landmarks ∈ gestureLabels := by
  unfold classifyGesture classifyGestureBody
  cases computeFingersUp landmarks with
  | none => simp [gestureLabels]
  | some v =>
    simp only [Option.some_bind, Option.bind_eq_bind, Option.pure_def]
    unfold classifyFingers gestureLabels
    split_ifs <;> simp

theorem isWellFormed_allZeroHand : isWellFormed allZeroHand = true := by
  simp [isWellFormed, allZeroHand, constHand, mkPoint, Landmark.isNumeric]

/-- C4: for every hand of 21 landmarks, the extension vector computed by
classifyGesture has exactly 5 entries, in the order thumb, index, middle, ring,
pinky; the thumb bit is 1 iff landmark 4 has x strictly above landmark 3, and the
bit of each other finger is 1 iff its tip (8, 12, 16, 20) has y strictly below its
joint (6, 10, 14, 18); every entry is 0 or 1, and the finger count is the sum of
the bits and lies in 0..5. -/
theorem fingersUp_extension_vector (landmarks : Landmarks) (h : isHand21 landmarks = true) :
    ∃ t i m r p : Nat, computeFingersUp landmarks = some [t, i, m, r, p]
      ∧ (t = 1 ↔ numLt (pt landmarks 3).x (pt landmarks 4).x)
      ∧ (i = 1 ↔ numLt (pt landmarks 8).y (pt landmarks 6).y)
      ∧ (m = 1 ↔ numLt (pt landmarks 12).y (pt landmarks 10).y)
      ∧ (r = 1 ↔ numLt (pt landmarks 16).y (pt landmarks 14).y)
      ∧ (p = 1 ↔ numLt (pt landmarks 20).y (pt landmarks 18).y)
      ∧ (t = 0 ∨ t = 1) ∧ (i = 0 ∨ i = 1) ∧ (m = 0 ∨ m = 1) ∧ (r = 0 ∨ r = 1) ∧ (p = 0 ∨ p = 1)
      ∧ fingerCount [t, i, m, r, p] = t + i + m + r + p
      ∧ fingerCount [t, i, m, r, p] ≤ 5 := by
  refine ⟨_, _, _, _, _, computeFingersUp_of_hand h, ?_, ?_, ?_, ?_, ?_, ?_⟩
  · rw [bit_eq_one_iff, jsGt_eq_true_iff]
  · rw [bit_eq_one_iff]; exact jsLt_eq_true_iff _ _
  · rw [bit_eq_one_iff]; exact jsLt_eq_true_iff _ _
  · rw [bit_eq_one_iff]; exact jsLt_eq_true_iff _ _
  · rw [bit_eq_one_iff]; exact jsLt_eq_true_iff _ _
  · generalize jsGt (pt landmarks 4).x (pt landmarks 3).x = a
    generalize jsLt (pt landmarks 8).y (pt landmarks 6).y = b
    generalize jsLt (pt landmarks 12).y (pt landmarks 10).y = c
    generalize jsLt (pt landmarks 16).y (pt landmarks 14).y = d
    generalize jsLt (pt landmarks 20).y (pt landmarks 18).y = e
    cases a <;> cases b <;> cases c <;> cases d <;> cases e <;> decide

/-- Witness of C4 at the index-only hand: its vector is 0, 1, 0, 0, 0. -/
theorem fingersUp_extension_vector_witness :
    isHand21 pointTouchHand = true ∧
      ∃ t i m r p : Nat, computeFingersUp pointTouchHand = some [t, i, m, r, p]
        ∧ (t = 1 ↔ numLt (pt pointTouchHand 3).x (pt pointTouchHand 4).x)
        ∧ (i = 1 ↔ numLt (pt pointTouchHand 8).y (pt pointTouchHand 6).y)
        ∧ (m = 1 ↔ numLt (pt pointTouchHand 12).y (pt pointTouchHand 10).y)
        ∧ (r = 1 ↔ numLt (pt pointTouchHand 16).y (pt pointTouchHand 14).y)
        ∧ (p = 1 ↔ numLt (pt pointTouchHand 20).y (pt pointTouchHand 18).y)
        ∧ (t = 0 ∨ t = 1) ∧ (i = 0 ∨ i = 1) ∧ (m = 0 ∨ m = 1) ∧ (r = 0 ∨ r = 1)
        ∧ (p = 0 ∨ p = 1)
        ∧ fingerCount [t, i, m, r, p] = t + i + m + r + p
        ∧ fingerCount [t, i, m, r, p] ≤ 5 :=
  ⟨isHand21_pointTouchHand, fingersUp_extension_vector pointTouchHand isHand21_pointTouchHand⟩

/-- C5: for every well-formed input of 21 landmarks with numeric coordinates
(the all-zero and the all-equal hands among them), neither classifyGesture nor
isOKGesture throws, and classifyGesture returns one label of the closed set
point, peace, ok, fist, open, thumbsup, unknown. -/
theorem classifyGesture_never_throws (landmarks : Landmarks)
    (h : isWellFormed landmarks = true) :
    (∃ g, classifyGestureBody landmarks = some g ∧ classifyGesture landmarks = g)
      ∧ (∃ b, isOKGestureBody landmarks = some b)
      ∧ classifyGesture landmarks ∈ gestureLabels := by
  have hh := isHand21_of_isWellFormed h
  refine ⟨?_, ?_, classifyGesture_mem landmarks⟩
  · unfold classifyGesture classifyGestureBody
    rw [computeFingersUp_of_hand hh]
    exact ⟨_, rfl, rfl⟩
  · unfold isOKGestureBody
    rw [landmarkAt_of_isHand21 hh (by decide : 4 < 21),
      landmarkAt_of_isHand21 hh (by decide : 8 < 21)]
    exact ⟨_, rfl⟩

/-- Witness of C5 at the all-zero hand. -/
theorem classifyGesture_never_throws_witness :
    isWellFormed allZeroHand = true ∧
      (∃ g, classifyGestureBody allZeroHand = some g ∧ classifyGesture allZeroHand = g)
      ∧ (∃ b, isOKGestureBody allZeroHand = some b)
      ∧ classifyGesture allZeroHand ∈ gestureLabels :=
  ⟨isWellFormed_allZeroHand, classifyGesture_never_throws allZeroHand isWellFormed_allZeroHand⟩

/-- C6: for every input in which a landmark that classification reads is missing
(one of the indices 3, 4, 6, 8, 10, 12, 14, 16, 18, 20 reads undefined; in
particular a sequence shorter than 21, or no sequence at all), the try block of
classifyGesture throws, the catch branch takes over, and classifyGesture returns
unknown to its caller. -/
theorem classifyGesture_missing_landmark (landmarks : Landmarks)
    (h : landmarks = none ∨ (∃ l, landmarks = some l ∧ l.length < 21) ∨
      ∃ i ∈ neededIndices, landmarkAt landmarks i = none) :
    classifyGestureBody landmarks = none ∧ classifyGesture landmarks = "unknown" := by
  have hmiss : ∃ i ∈ neededIndices, landmarkAt landmarks i = none := by
    rcases h with rfl | ⟨l, rfl, hl⟩ | h
    · exact ⟨20, by decide, rfl⟩
    · exact ⟨20, by decide, landmarkAt_short l 20 (by omega)⟩
    · exact h
  obtain ⟨i, hi, hnone⟩ := hmiss
  have hb := classifyGestureBody_missing landmarks i hi hnone
  exact ⟨hb, by simp [classifyGesture, hb]⟩

/-- Witness of C6 at a sequence of 20 landmarks. -/
theorem classifyGesture_missing_landmark_witness :
    classifyGestureBody (some (List.replicate 20 (some (mkPoint 0 0)))) = none ∧
      classifyGesture (some (List.replicate 20 (some (mkPoint 0 0)))) = "unknown" :=
  classifyGesture_missing_landmark _ (Or.inr (Or.inl ⟨_, rfl, by simp⟩))

/-! ## Helper lemmas on dispatch -/

theorem dispatchCount_append (xs ys : List Effect) :
    dispatchCount (xs ++ ys) = dispatchCount xs + dispatchCount ys := by
  simp [dispatchCount, List.filter_append]

theorem stopSpeaking_spec (w : World) :
    (stopSpeaking w).handler = w.handler ∧
      dispatchCount (stopSpeaking w).effects = dispatchCount w.effects := by
  unfold stopSpeaking
  split_ifs <;> simp [World.emit, dispatchCount, List.filter_append, Effect.isDispatch]

theorem handleOKGesture_spec (w : World) :
    (handleOKGesture w).handler = w.handler ∧
      dispatchCount (handleOKGesture w).effects = dispatchCount w.effects := by
  unfold handleOKGesture
  split <;> (try split_ifs) <;> (try split) <;>
    simp [World.emit, dispatchCount, List.filter_append, Effect.isDispatch]

/-- A gesture handler changes no field of the gesture handler object and logs no
dispatch. -/
theorem gestureSwitch_spec (w w2 : World) (gesture : String)
    (h : gestureSwitch w gesture = some w2) :
    w2.handler = w.handler ∧ dispatchCount w2.effects = dispatchCount w.effects := by
  unfold gestureSwitch at h
  split_ifs at h
  · cases h; simp [handlePointGesture, World.emit, dispatchCount, List.filter_append,
      Effect.isDispatch]
  · cases h; simp [handlePeaceGesture, World.emit, dispatchCount, List.filter_append,
      Effect.isDispatch]
  · cases h; exact handleOKGesture_spec w
  · cases h; simp [handleFistGesture, World.emit, dispatchCount, List.filter_append,
      Effect.isDispatch]
  · unfold handleOpenHandGesture at h
    split at h
    · cases h
    · split_ifs at h
      · cases h; exact stopSpeaking_spec w
      · cases h; simp [World.emit, dispatchCount, List.filter_append, Effect.isDispatch]
  · unfold handleThumbsUpGesture at h
    split at h
    · cases h
    · cases h; simp [World.emit, dispatchCount, List.filter_append, Effect.isDispatch]
  · cases h; exact ⟨rfl, rfl⟩

/-- With a handedness label, `executeGesture` returns, leaves the handler object
as it is and logs exactly one dispatch. -/
theorem executeGesture_some (w : World) (gesture label : String) :
    ∃ w2, executeGesture w gesture (some label) = .ok w2 ∧ w2.handler = w.handler ∧
      dispatchCount w2.effects = dispatchCount w.effects + 1 := by
  unfold executeGesture
  simp only
  cases hs : gestureSwitch (w.emit (.log (.gestureDetected gesture (toLowerCase label)) "info")) gesture with
  | none =>
    refine ⟨_, rfl, rfl, ?_⟩
    simp [World.emit, dispatchCount, List.filter_append, Effect.isDispatch]
  | some w2 =>
    obtain ⟨hh, hc⟩ := gestureSwitch_spec _ _ _ hs
    refine ⟨_, rfl, ?_, ?_⟩
    · simpa [showGestureFeedback, World.emit] using hh
    · simp only [showGestureFeedback, World.emit, dispatchCount_append, hc]
      simp [dispatchCount, Effect.isDispatch, List.filter_append]

theorem classifyGestureLog_of_recognised (landmarks : Landmarks)
    (h : classifyGesture landmarks ≠ "unknown") : classifyGestureLog landmarks = [] := by
  unfold classifyGestureLog
  unfold classifyGesture at h
  cases hb : classifyGestureBody landmarks with
  | none => rw [hb] at h; exact absurd rfl h
  | some g => rfl

theorem dispatchCount_classifyGestureLog (landmarks : Landmarks) :
    dispatchCount (classifyGestureLog landmarks) = 0 := by
  unfold classifyGestureLog
  split <;> simp [dispatchCount, Effect.isDispatch]

theorem classifyGesture_ne_empty (landmarks : Landmarks) : classifyGesture landmarks ≠ "" := by
  intro h
  have := classifyGesture_mem landmarks
  rw [h] at this
  revert this
  decide

/-- A call that finds the gate open, a recognised gesture and a handedness label
dispatches and records the time. -/
theorem detectGestures_dispatch (w : World) (now : Int) (landmarks : Landmarks) (label : String)
    (hgate : ¬ now - w.handler.lastGestureTime < w.handler.gestureThreshold)
    (hrec : classifyGesture landmarks ≠ "unknown") :
    ∃ w2, executeGesture w (classifyGesture landmarks) (some label) = .ok w2 ∧
      detectGestures w now landmarks (some label)
        = .ok { w2 with handler := { w2.handler with lastGestureTime := now } } ∧
      w2.handler = w.handler ∧ dispatchCount w2.effects = dispatchCount w.effects + 1 := by
  obtain ⟨w2, h2, hh, hc⟩ := executeGesture_some w (classifyGesture landmarks) label
  refine ⟨w2, h2, ?_, hh, hc⟩
  unfold detectGestures
  rw [if_neg hgate]
  simp only [classifyGestureLog_of_recognised landmarks hrec, List.append_nil]
  rw [if_pos ⟨classifyGesture_ne_empty landmarks, hrec⟩, h2]

/-- Every call either dispatches, with the gate open, and records its time, or
leaves the handler object and the number of dispatches as they were. -/
theorem afterDetect_cases (w : World) (now : Int) (landmarks : Landmarks)
    (handedness : Option String) :
    (dispatchedBetween w (afterDetect w now landmarks handedness) = true ∧
        now - w.handler.lastGestureTime ≥ w.handler.gestureThreshold ∧
        (afterDetect w now landmarks handedness).handler
          = { w.handler with lastGestureTime := now })
      ∨ (dispatchedBetween w (afterDetect w now landmarks handedness) = false ∧
        (afterDetect w now landmarks handedness).handler = w.handler) := by
  by_cases hgate : now - w.handler.lastGestureTime < w.handler.gestureThreshold
  · right
    simp [afterDetect, detectGestures, hgate, dispatchedBetween]
  · by_cases hrec : classifyGesture landmarks = "unknown"
    · right
      simp [afterDetect, detectGestures, hgate, hrec, dispatchedBetween, dispatchCount_append,
        dispatchCount_classifyGestureLog]
    · cases handedness with
      | none =>
        right
        simp [afterDetect, detectGestures, hgate, hrec, classifyGesture_ne_empty,
          executeGesture, dispatchedBetween, classifyGestureLog_of_recognised landmarks hrec]
      | some label =>
        left
        obtain ⟨w2, _, hd, hh, hc⟩ := detectGestures_dispatch w now landmarks label hgate hrec
        simp only [afterDetect, hd, dispatchedBetween, hc, hh]
        exact ⟨by simp, by omega, trivial⟩


theorem filter_classifyGestureLog (landmarks : Landmarks) :
    (classifyGestureLog landmarks).filter Effect.isPageAction = [] ∧
      (classifyGestureLog landmarks).filter Effect.isNotification = [] := by
  unfold classifyGestureLog
  split <;> simp [Effect.isPageAction, Effect.isNotification]

theorem executeGesture_fist_samplePage :
    executeGesture (freshWorld samplePage) "fist" (some "Left")
      = .ok { handler := InklusivGestureHandler.new, page := samplePage,
              effects := [.log (.gestureDetected "fist" "left") "info", .historyBack,
                .showNotification "Gesture: Fist (Go Back)" "info" 1500] } := by
  rfl

theorem callStep_cases (w : World) (c : Call) :
    (dispatchedBetween { w with page := c.page } (callStep w c) = true ∧
        c.now - w.handler.lastGestureTime ≥ w.handler.gestureThreshold ∧
        (callStep w c).handler = { w.handler with lastGestureTime := c.now })
      ∨ (dispatchedBetween { w with page := c.page } (callStep w c) = false ∧
        (callStep w c).handler = w.handler) :=
  afterDetect_cases { w with page := c.page } c.now c.landmarks c.handedness

/-- The invariant of a session, from any handler whose threshold is 500. -/
theorem runCalls_invariant (calls : List Call) :
    ∀ w : World, w.handler.gestureThreshold = 500 →
      List.Chain (fun a b : Int => b - a ≥ 500) w.handler.lastGestureTime (dispatchTimes w calls) ∧
      (runCalls w calls).handler.lastGestureTime
        = ((dispatchTimes w calls).getLast?).getD w.handler.lastGestureTime := by
  induction calls with
  | nil => intro w _; exact ⟨List.Chain.nil, rfl⟩
  | cons c cs ih =>
    intro w hthr
    rcases callStep_cases w c with ⟨hd, hg, hh⟩ | ⟨hd, hh⟩
    · have hthr2 : (callStep w c).handler.gestureThreshold = 500 := by rw [hh]; exact hthr
      have hlast : (callStep w c).handler.lastGestureTime = c.now := by rw [hh]
      obtain ⟨ih1, ih2⟩ := ih (callStep w c) hthr2
      rw [hlast] at ih1 ih2
      rw [hthr] at hg
      have htimes : dispatchTimes w (c :: cs) = c.now :: dispatchTimes (callStep w c) cs := by
        simp [dispatchTimes, hd]
      rw [htimes]
      refine ⟨List.Chain.cons hg ih1, ?_⟩
      rw [List.getLast?_cons]
      simpa [runCalls] using ih2
    · have hthr2 : (callStep w c).handler.gestureThreshold = 500 := by rw [hh]; exact hthr
      have hlast : (callStep w c).handler.lastGestureTime = w.handler.lastGestureTime := by
        rw [hh]
      obtain ⟨ih1, ih2⟩ := ih (callStep w c) hthr2
      rw [hlast] at ih1 ih2
      have htimes : dispatchTimes w (c :: cs) = dispatchTimes (callStep w c) cs := by
        simp [dispatchTimes, hd]
      rw [htimes]
      exact ⟨ih1, by simpa [runCalls] using ih2⟩

/-! ## Properties of the debouncer -/

/-- C7, as stated, fails: a hand of 21 landmark objects without coordinates (each
comparison on them is false, the distance is NaN) is classified fist, and from a
fresh handler at time 1000 detectGestures goes back in history and shows the
feedback notification. -/
theorem malformed_coordinates_counterexample :
    isHand21 emptyObjectsHand = true ∧
      (∀ i, i < 21 → (pt emptyObjectsHand i).x = none ∧ (pt emptyObjectsHand i).y = none) ∧
      classifyGesture emptyObjectsHand = "fist" ∧
      detectGestures (freshWorld samplePage) 1000 emptyObjectsHand (some "Left")
        = .ok { handler := { InklusivGestureHandler.new with lastGestureTime := 1000 },
                page := samplePage,
                effects := [.log (.gestureDetected "fist" "left") "info", .historyBack,
                  .showNotification "Gesture: Fist (Go Back)" "info" 1500] } := by
  refine ⟨isHand21_emptyObjectsHand, fun i hi => ?_, classifyGesture_emptyObjectsHand, ?_⟩
  · rw [emptyObjectsHand, pt_constHand _ i hi]
    exact ⟨rfl, rfl⟩
  · obtain ⟨w2, h2, hd, _, _⟩ := detectGestures_dispatch (freshWorld samplePage) 1000
      emptyObjectsHand "Left" (by decide) (by rw [classifyGesture_emptyObjectsHand]; decide)
    rw [classifyGesture_emptyObjectsHand, executeGesture_fist_samplePage] at h2
    cases h2
    rw [hd]

/-- C7, amended: for every frame whose hand lacks a landmark that classification
reads, the hand is treated as none for that frame: classifyGesture yields
unknown, and detectGestures returns without dispatching, with no page action, no
notification and no change of the handler. -/
theorem detectGestures_missing_landmark (w : World) (now : Int) (landmarks : Landmarks)
    (handedness : Option String)
    (h : ∃ i ∈ neededIndices, landmarkAt landmarks i = none) :
    classifyGesture landmarks = "unknown" ∧
      ∃ w1, detectGestures w now landmarks handedness = .ok w1 ∧
        w1.handler = w.handler ∧ w1.page = w.page ∧
        w1.effects.filter Effect.isPageAction = w.effects.filter Effect.isPageAction ∧
        w1.effects.filter Effect.isNotification = w.effects.filter Effect.isNotification ∧
        dispatchCount w1.effects = dispatchCount w.effects := by
  obtain ⟨i, hi, hnone⟩ := h
  have hb := classifyGestureBody_missing landmarks i hi hnone
  have hu : classifyGesture landmarks = "unknown" := by simp [classifyGesture, hb]
  refine ⟨hu, ?_⟩
  unfold detectGestures
  split_ifs with hgate
  · exact ⟨w, rfl, rfl, rfl, rfl, rfl, rfl⟩
  · simp only [hu, ne_eq, not_true_eq_false, and_false, if_false]
    refine ⟨_, rfl, rfl, rfl, ?_, ?_, ?_⟩
    · simp [List.filter_append, (filter_classifyGestureLog landmarks).1]
    · simp [List.filter_append, (filter_classifyGestureLog landmarks).2]
    · simp [dispatchCount_append, dispatchCount_classifyGestureLog]

/-- Witness of the amended C7 at a sequence of 20 landmarks. -/
theorem detectGestures_missing_landmark_witness :
    classifyGesture (some (List.replicate 20 (some (mkPoint 0 0)))) = "unknown" ∧
      ∃ w1, detectGestures (freshWorld samplePage) 1000
          (some (List.replicate 20 (some (mkPoint 0 0)))) (some "Left") = .ok w1 ∧
        w1.handler = (freshWorld samplePage).handler ∧ w1.page = (freshWorld samplePage).page ∧
        w1.effects.filter Effect.isPageAction
          = (freshWorld samplePage).effects.filter Effect.isPageAction ∧
        w1.effects.filter Effect.isNotification
          = (freshWorld samplePage).effects.filter Effect.isNotification ∧
        dispatchCount w1.effects = dispatchCount (freshWorld samplePage).effects :=
  detectGestures_missing_landmark _ _ _ _ ⟨20, by decide, landmarkAt_short _ 20 (by simp)⟩

/-- C8: for every handler state, every timestamp and every hand (with its
handedness label) whose classification is a recognised gesture, detectGestures
dispatches the gesture if and only if now - lastGestureTime >= gestureThreshold;
when it dispatches it runs executeGesture on the classified gesture and
lastGestureTime equals now afterwards; when it does not, nothing changes. The
threshold of a new handler is 500, and a gap of exactly 500 dispatches. -/
theorem detectGestures_gate_iff (w : World) (now : Int) (landmarks : Landmarks)
    (label : String) (hrec : classifyGesture landmarks ≠ "unknown") :
    ∃ w1, detectGestures w now landmarks (some label) = .ok w1 ∧
      (dispatchedBetween w w1 = true
        ↔ now - w.handler.lastGestureTime ≥ w.handler.gestureThreshold) ∧
      (dispatchedBetween w w1 = true →
        w1.handler = { w.handler with lastGestureTime := now } ∧
        ∃ w2, executeGesture w (classifyGesture landmarks) (some label) = .ok w2 ∧
          w1.effects = w2.effects ∧ w1.page = w2.page) ∧
      (dispatchedBetween w w1 = false → w1 = w) ∧
      InklusivGestureHandler.new.gestureThreshold = 500 ∧
      (w.handler.gestureThreshold = 500 → now - w.handler.lastGestureTime = 500 →
        dispatchedBetween w w1 = true) := by
  by_cases hgate : now - w.handler.lastGestureTime < w.handler.gestureThreshold
  · refine ⟨w, by simp [detectGestures, hgate], ?_, ?_, fun _ => rfl, rfl, ?_⟩
    · simp only [dispatchedBetween, lt_self_iff_false, decide_False, Bool.false_eq_true,
        false_iff, ge_iff_le, not_le]
      exact hgate
    · intro hd; simp [dispatchedBetween] at hd
    · intro h1 h2; omega
  · obtain ⟨w2, h2, hd, hh, hc⟩ := detectGestures_dispatch w now landmarks label hgate hrec
    have hdisp : dispatchedBetween w
        { w2 with handler := { w2.handler with lastGestureTime := now } } = true := by
      simp [dispatchedBetween, hc]
    refine ⟨_, hd, ?_, ?_, ?_, rfl, fun _ _ => hdisp⟩
    · rw [hdisp]; simp only [true_iff]; omega
    · intro _
      exact ⟨by rw [hh], w2, h2, rfl, rfl⟩
    · intro hf; rw [hdisp] at hf; cases hf

/-- Witness of C8: from a new handler, the index-only hand seen at time 500 (a
gap of exactly 500) is dispatched and the time is recorded. -/
theorem detectGestures_gate_iff_witness :
    classifyGesture pointTouchHand ≠ "unknown" ∧
      ∃ w1, detectGestures (freshWorld samplePage) 500 pointTouchHand (some "Right") = .ok w1 ∧
        dispatchedBetween (freshWorld samplePage) w1 = true ∧
        w1.handler.lastGestureTime = 500 := by
  have hrec : classifyGesture pointTouchHand ≠ "unknown" := by
    rw [classifyGesture_pointTouchHand]; decide
  obtain ⟨w1, h1, _, h3, _, _, h6⟩ :=
    detectGestures_gate_iff (freshWorld samplePage) 500 pointTouchHand "Right" hrec
  have hd := h6 rfl (by decide)
  exact ⟨hrec, w1, h1, hd, by rw [(h3 hd).1]⟩

/-- C9: in every sequence of detectGestures calls (any hands, any handedness, any
timestamps, any page states) from a new handler, each dispatch happens at a time
at least 500 after the time of the previous dispatch (0 before the first), so
two successive dispatches are at least 500 ms apart; and lastGestureTime after
the sequence is the time of the most recent dispatch (0 when there was none). -/
theorem dispatches_spaced (page : Page) (calls : List Call) :
    List.Chain (fun a b : Int => b - a ≥ 500) 0 (dispatchTimes (freshWorld page) calls) ∧
      (runCalls (freshWorld page) calls).handler.lastGestureTime
        = ((dispatchTimes (freshWorld page) calls).getLast?).getD 0 :=
  runCalls_invariant calls (freshWorld page) rfl

/-- C10: given two detections of recognised gestures, the first of which
dispatches at time t from a handler with the threshold 500: a second detection
at t + 499 is not dispatched (only the first is), and a second detection of a
recognised gesture at t + 501 is dispatched as well. -/
theorem debounce_boundary (w : World) (t : Int) (first second : Landmarks)
    (handedness : Option String) (label : String) (page : Page)
    (hthr : w.handler.gestureThreshold = 500)
    (hsecond : classifyGesture second ≠ "unknown")
    (hfirst : dispatchedBetween w (afterDetect w t first handedness) = true) :
    dispatchedBetween { afterDetect w t first handedness with page := page }
        (afterDetect { afterDetect w t first handedness with page := page } (t + 499) second
          (some label)) = false
      ∧ dispatchedBetween { afterDetect w t first handedness with page := page }
        (afterDetect { afterDetect w t first handedness with page := page } (t + 501) second
          (some label)) = true := by
  have hh : (afterDetect w t first handedness).handler = { w.handler with lastGestureTime := t } := by
    rcases afterDetect_cases w t first handedness with ⟨_, _, hh⟩ | ⟨hd, _⟩
    · exact hh
    · rw [hfirst] at hd; cases hd
  generalize afterDetect w t first handedness = w1 at hh ⊢
  constructor
  · rcases afterDetect_cases { w1 with page := page } (t + 499) second (some label)
      with ⟨_, hg, _⟩ | ⟨hd, _⟩
    · simp only [hh, hthr] at hg; omega
    · exact hd
  · obtain ⟨w2, _, hd, _, hc⟩ := detectGestures_dispatch { w1 with page := page } (t + 501)
      second label (by simp only [hh, hthr]; omega) hsecond
    simp only [afterDetect, hd]
    simp [dispatchedBetween, hc]

/-- Witness of C10: from a new handler the index-only hand is dispatched at time
1000; seen again at 1499 it is not, and seen again at 1501 it is. -/
theorem debounce_boundary_witness :
    dispatchedBetween (freshWorld samplePage)
        (afterDetect (freshWorld samplePage) 1000 pointTouchHand (some "Right")) = true
      ∧ dispatchedBetween
        { afterDetect (freshWorld samplePage) 1000 pointTouchHand (some "Right") with
          page := samplePage }
        (afterDetect
          { afterDetect (freshWorld samplePage) 1000 pointTouchHand (some "Right") with
            page := samplePage } (1000 + 499) pointTouchHand (some "Right")) = false
      ∧ dispatchedBetween
        { afterDetect (freshWorld samplePage) 1000 pointTouchHand (some "Right") with
          page := samplePage }
        (afterDetect
          { afterDetect (freshWorld samplePage) 1000 pointTouchHand (some "Right") with
            page := samplePage } (1000 + 501) pointTouchHand (some "Right")) = true := by
  have hrec : classifyGesture pointTouchHand ≠ "unknown" := by
    rw [classifyGesture_pointTouchHand]; decide
  have hfirst : dispatchedBetween (freshWorld samplePage)
      (afterDetect (freshWorld samplePage) 1000 pointTouchHand (some "Right")) = true := by
    obtain ⟨w2, _, hd, _, hc⟩ := detectGestures_dispatch (freshWorld samplePage) 1000
      pointTouchHand "Right" (by decide) hrec
    simp only [afterDetect, hd]
    simp [dispatchedBetween, hc]
  exact ⟨hfirst, debounce_boundary (freshWorld samplePage) 1000 pointTouchHand pointTouchHand
    (some "Right") "Right" samplePage rfl hrec hfirst⟩

/-! ## Helper lemmas on frames -/

theorem dispatches_append (xs ys : List Effect) :
    dispatches (xs ++ ys) = dispatches xs ++ dispatches ys := by
  simp [dispatches, List.filter_append]

theorem dispatchCount_eq_length (xs : List Effect) : dispatchCount xs = (dispatches xs).length :=
  rfl

/-- A gesture handler adds no dispatch line, no notification, and at most one
page action. -/
theorem gestureSwitch_effects (w w2 : World) (gesture : String)
    (h : gestureSwitch w gesture = some w2) :
    ∃ added, w2.effects = w.effects ++ added ∧ dispatches added = [] ∧
      added.filter Effect.isNotification = [] ∧ added.length ≤ 1 := by
  unfold gestureSwitch at h
  split_ifs at h
  · cases h; exact ⟨[_], rfl, rfl, rfl, by simp⟩
  · cases h; exact ⟨[_], rfl, rfl, rfl, by simp⟩
  · cases h
    unfold handleOKGesture
    split
    · split_ifs
      · exact ⟨[_], rfl, rfl, rfl, by simp⟩
      · split
        · exact ⟨[_], rfl, rfl, rfl, by simp⟩
        · exact ⟨[], by simp, rfl, rfl, by simp⟩
    · split
      · exact ⟨[_], rfl, rfl, rfl, by simp⟩
      · exact ⟨[], by simp, rfl, rfl, by simp⟩
  · cases h; exact ⟨[_], rfl, rfl, rfl, by simp⟩
  · unfold handleOpenHandGesture at h
    split at h
    · cases h
    · split_ifs at h
      · cases h
        unfold stopSpeaking
        split_ifs
        · exact ⟨[_], rfl, rfl, rfl, by simp⟩
        · exact ⟨[], by simp, rfl, rfl, by simp⟩
      · cases h; exact ⟨[_], rfl, rfl, rfl, by simp⟩
  · unfold handleThumbsUpGesture at h
    split at h
    · cases h
    · cases h; exact ⟨[_], rfl, rfl, rfl, by simp⟩
  · cases h; exact ⟨[], by simp, rfl, rfl, by simp⟩

/-- With a handedness label, `executeGesture` adds exactly one dispatch line: the
one of its gesture and hand. -/
theorem executeGesture_dispatches (w w2 : World) (gesture label : String)
    (h : executeGesture w gesture (some label) = .ok w2) :
    dispatches w2.effects
      = dispatches w.effects ++ [.log (.gestureDetected gesture (toLowerCase label)) "info"] := by
  unfold executeGesture at h
  simp only at h
  cases hs : gestureSwitch (w.emit (.log (.gestureDetected gesture (toLowerCase label)) "info"))
      gesture with
  | none =>
    rw [hs] at h
    cases h
    simp [World.emit, dispatches, List.filter_append, Effect.isDispatch]
  | some w3 =>
    rw [hs] at h
    cases h
    obtain ⟨added, ha, hd, _, _⟩ := gestureSwitch_effects _ _ _ hs
    simp only [showGestureFeedback, World.emit, ha, dispatches_append, hd]
    simp [dispatches, Effect.isDispatch]

/-- Every call of `detectGestures` either dispatches the classified gesture of the
hand, with the gate open, and records its time, or changes neither the handler
object, nor the page, nor the page actions, notifications and dispatch lines of
the trace. -/
theorem detectGestures_cases (w : World) (now : Int) (landmarks : Landmarks)
    (handedness : Option String) :
    (∃ label w2, handedness = some label ∧
        now - w.handler.lastGestureTime ≥ w.handler.gestureThreshold ∧
        classifyGesture landmarks ≠ "unknown" ∧
        executeGesture w (classifyGesture landmarks) (some label) = .ok w2 ∧
        detectGestures w now landmarks handedness
          = .ok { w2 with handler := { w.handler with lastGestureTime := now } } ∧
        dispatches w2.effects = dispatches w.effects ++
          [.log (.gestureDetected (classifyGesture landmarks) (toLowerCase label)) "info"])
      ∨ ((worldOf (detectGestures w now landmarks handedness)).handler = w.handler ∧
        (worldOf (detectGestures w now landmarks handedness)).page = w.page ∧
        dispatches (worldOf (detectGestures w now landmarks handedness)).effects
          = dispatches w.effects ∧
        (worldOf (detectGestures w now landmarks handedness)).effects.filter Effect.isPageAction
          = w.effects.filter Effect.isPageAction ∧
        (worldOf (detectGestures w now landmarks handedness)).effects.filter
            Effect.isNotification
          = w.effects.filter Effect.isNotification ∧
        (now - w.handler.lastGestureTime < w.handler.gestureThreshold ∨
          classifyGesture landmarks = "unknown" ∨ handedness = none)) := by
  by_cases hgate : now - w.handler.lastGestureTime < w.handler.gestureThreshold
  · right
    simp [detectGestures, hgate, worldOf]
  · by_cases hrec : classifyGesture landmarks = "unknown"
    · right
      have hf := filter_classifyGestureLog landmarks
      have hd : dispatches (classifyGestureLog landmarks) = [] := by
        unfold classifyGestureLog
        split <;> simp [dispatches, Effect.isDispatch]
      simp [detectGestures, hgate, hrec, worldOf, dispatches_append, hd, List.filter_append,
        hf.1, hf.2]
    · cases handedness with
      | none =>
        right
        simp [detectGestures, hgate, hrec, classifyGesture_ne_empty, executeGesture, worldOf,
          classifyGestureLog_of_recognised landmarks hrec]
      | some label =>
        left
        obtain ⟨w2, h2, hd, hh, _⟩ := detectGestures_dispatch w now landmarks label hgate hrec
        refine ⟨label, w2, rfl, by omega, hrec, h2, ?_, executeGesture_dispatches _ _ _ _ h2⟩
        rw [hd, hh]

theorem afterDetect_eq_worldOf (w : World) (now : Int) (landmarks : Landmarks)
    (handedness : Option String) :
    afterDetect w now landmarks handedness = worldOf (detectGestures w now landmarks handedness) :=
  rfl

theorem isDrawable_of_isHand21 {landmarks : Landmarks} (h : isHand21 landmarks = true) :
    isDrawable landmarks = true := by
  cases landmarks with
  | none => simp [isHand21] at h
  | some l =>
    simp only [isHand21, Bool.and_eq_true, beq_iff_eq] at h
    simp only [isDrawable, Bool.and_eq_true, decide_eq_true_eq]
    exact ⟨by omega, h.2⟩

theorem drawHandLandmarks_spec (w : World) (landmarks : Landmarks) :
    (worldOf (drawHandLandmarks w landmarks)).handler = w.handler ∧
      (worldOf (drawHandLandmarks w landmarks)).page = w.page ∧
      dispatches (worldOf (drawHandLandmarks w landmarks)).effects = dispatches w.effects := by
  unfold drawHandLandmarks
  split_ifs <;> simp [worldOf, World.emit, dispatches, List.filter_append, Effect.isDispatch]

/-- One round of the loop of `onResults` either dispatches the gesture of its
hand, with the gate open at its time, or leaves the handler object and the
dispatch lines as they were. -/
theorem handStep_cases (results : FrameResults) (now : Int) (i : Nat) (landmarks : Landmarks)
    (w : World) :
    (∃ label w1, now - w.handler.lastGestureTime ≥ w.handler.gestureThreshold ∧
        handStep results now i landmarks w = .ok w1 ∧
        w1.handler = { w.handler with lastGestureTime := now } ∧
        dispatches w1.effects = dispatches w.effects ++
          [.log (.gestureDetected (classifyGesture landmarks) (toLowerCase label)) "info"])
      ∨ ((worldOf (handStep results now i landmarks w)).handler = w.handler ∧
        dispatches (worldOf (handStep results now i landmarks w)).effects
          = dispatches w.effects) := by
  unfold handStep
  cases results.multiHandedness with
  | none => right; exact ⟨rfl, rfl⟩
  | some labels =>
    simp only
    have key : ∀ w0 : World, w0.handler = w.handler → dispatches w0.effects = dispatches w.effects →
        (∃ label w1, now - w.handler.lastGestureTime ≥ w.handler.gestureThreshold ∧
          detectGestures w0 now landmarks (labels.get? i).join = .ok w1 ∧
          w1.handler = { w.handler with lastGestureTime := now } ∧
          dispatches w1.effects = dispatches w.effects ++
            [.log (.gestureDetected (classifyGesture landmarks) (toLowerCase label)) "info"])
        ∨ ((worldOf (detectGestures w0 now landmarks (labels.get? i).join)).handler = w.handler ∧
          dispatches (worldOf (detectGestures w0 now landmarks (labels.get? i).join)).effects
            = dispatches w.effects) := by
      intro w0 hh hd
      rcases detectGestures_cases w0 now landmarks (labels.get? i).join with
        ⟨label, w2, _, hg, _, _, hdet, hdis⟩ | ⟨h1, _, h3, _⟩
      · left
        refine ⟨label, _, by rw [← hh]; exact hg, hdet, by rw [hh], ?_⟩
        simp only [hdis, hd]
      · right
        exact ⟨h1.trans hh, h3.trans hd⟩
    by_cases hctx : w.handler.canvasCtx = true
    · rw [if_pos hctx]
      obtain ⟨hh, _, hd⟩ := drawHandLandmarks_spec w landmarks
      cases hdraw : drawHandLandmarks w landmarks with
      | error w0 =>
        rw [hdraw] at hh hd
        right
        exact ⟨hh, hd⟩
      | ok w0 =>
        rw [hdraw] at hh hd
        exact key w0 hh hd
    · rw [if_neg hctx]
      exact key w rfl rfl

/-- One round of the loop dispatches the gesture of its hand when the hand has a
label and can be drawn, its gesture is recognised and the gate is open. -/
theorem handStep_dispatch (results : FrameResults) (now : Int) (i : Nat)
    (landmarks : Landmarks) (w : World) (labels : List (Option String)) (label : String)
    (hlabels : results.multiHandedness = some labels) (hlabel : labels.get? i = some (some label))
    (hdraw : isDrawable landmarks = true)
    (hgate : now - w.handler.lastGestureTime ≥ w.handler.gestureThreshold)
    (hrec : classifyGesture landmarks ≠ "unknown") :
    ∃ w1, handStep results now i landmarks w = .ok w1 ∧
      w1.handler = { w.handler with lastGestureTime := now } ∧
      dispatches w1.effects = dispatches w.effects ++
        [.log (.gestureDetected (classifyGesture landmarks) (toLowerCase label)) "info"] := by
  unfold handStep
  simp only [hlabels, hlabel, Option.join]
  have key : ∀ w0 : World, w0.handler = w.handler → dispatches w0.effects = dispatches w.effects →
      ∃ w1, detectGestures w0 now landmarks (some label) = .ok w1 ∧
        w1.handler = { w.handler with lastGestureTime := now } ∧
        dispatches w1.effects = dispatches w.effects ++
          [.log (.gestureDetected (classifyGesture landmarks) (toLowerCase label)) "info"] := by
    intro w0 hh hd
    obtain ⟨w2, h2, hdet, hh2, _⟩ := detectGestures_dispatch w0 now landmarks label
      (by rw [hh]; omega) hrec
    refine ⟨_, hdet, by simp only [hh2, hh], ?_⟩
    simp only [executeGesture_dispatches _ _ _ _ h2, hd]
  by_cases hctx : w.handler.canvasCtx = true
  · rw [if_pos hctx]
    simp only [drawHandLandmarks, hdraw, if_true]
    exact key _ rfl (by simp [World.emit, dispatches, List.filter_append, Effect.isDispatch])
  · rw [if_neg hctx]
    exact key w rfl rfl

theorem clearCanvas_spec (w : World) (results : FrameResults) :
    (worldOf (clearCanvas w results)).handler = w.handler ∧
      dispatches (worldOf (clearCanvas w results)).effects = dispatches w.effects := by
  unfold clearCanvas
  split_ifs <;> simp [worldOf, World.emit, dispatches, List.filter_append, Effect.isDispatch]

/-- The dispatch lines of an enabled `onResults` on a frame with hands are those of
its loop, or none when the canvas could not be cleared. -/
theorem onResults_dispatches (w : World) (results : FrameResults) (clock : Nat → Int)
    (landmarks : Landmarks) (rest : List Landmarks) (hen : w.handler.isEnabled = true)
    (hhands : results.multiHandLandmarks = some (landmarks :: rest)) :
    (∃ w0, clearCanvas w results = .error w0 ∧
        dispatches (onResults w results clock).effects = dispatches w.effects)
      ∨ (∃ w0, clearCanvas w results = .ok w0 ∧ w0.handler = w.handler ∧
        dispatches w0.effects = dispatches w.effects ∧
        dispatches (onResults w results clock).effects
          = dispatches (worldOf (handLoop results clock 0 (landmarks :: rest) w0)).effects) := by
  obtain ⟨hh, hd⟩ := clearCanvas_spec w results
  unfold onResults onResultsBody
  simp only [hen, Bool.not_true, Bool.false_eq_true, if_false, hhands]
  cases hc : clearCanvas w results with
  | error w0 =>
    left
    rw [hc] at hd
    refine ⟨w0, rfl, ?_⟩
    simp only [World.emit, dispatches_append]
    simpa [dispatches, Effect.isDispatch] using hd
  | ok w0 =>
    right
    rw [hc] at hh hd
    refine ⟨w0, rfl, hh, hd, ?_⟩
    simp only
    cases handLoop results clock 0 (landmarks :: rest) w0 with
    | error w2 =>
      simp [worldOf, World.emit, dispatches, List.filter_append, Effect.isDispatch]
    | ok w2 =>
      simp only [worldOf]
      split_ifs <;> simp [World.emit, dispatches, List.filter_append, Effect.isDispatch]

theorem dispatchedBetween_of_dispatches_eq (w w1 : World)
    (h : dispatches w1.effects = dispatches w.effects) : dispatchedBetween w w1 = false := by
  simp [dispatchedBetween, dispatchCount_eq_length, h]

theorem dispatchedBetween_of_dispatches_snoc (w w1 : World) (e : Effect)
    (h : dispatches w1.effects = dispatches w.effects ++ [e]) : dispatchedBetween w w1 = true := by
  simp [dispatchedBetween, dispatchCount_eq_length, h]

theorem worldOf_handLoop_last (results : FrameResults) (clock : Nat → Int) (i : Nat)
    (r : Except World World) :
    worldOf (match r with
      | .error w1 => .error w1
      | .ok w1 => handLoop results clock i [] w1) = worldOf r := by
  cases r <;> rfl

/-! ## Properties of dispatch and of frames -/

/-- C11: for every handler state, timestamp and hand, a detectGestures call that
does not dispatch performs no page action, shows no notification and leaves the
handler object, lastGestureTime included, unchanged; a call whose hand classifies
as unknown, or that the gate rejects, does not dispatch; and lastGestureTime
changes only in a call that dispatches. -/
theorem detectGestures_frame (w : World) (now : Int) (landmarks : Landmarks)
    (handedness : Option String) :
    (dispatchedBetween w (afterDetect w now landmarks handedness) = false →
        (afterDetect w now landmarks handedness).effects.filter Effect.isPageAction
            = w.effects.filter Effect.isPageAction ∧
          (afterDetect w now landmarks handedness).effects.filter Effect.isNotification
            = w.effects.filter Effect.isNotification ∧
          (afterDetect w now landmarks handedness).handler.lastGestureTime
            = w.handler.lastGestureTime ∧
          (afterDetect w now landmarks handedness).handler = w.handler)
      ∧ (classifyGesture landmarks = "unknown" →
          dispatchedBetween w (afterDetect w now landmarks handedness) = false)
      ∧ (now - w.handler.lastGestureTime < w.handler.gestureThreshold →
          dispatchedBetween w (afterDetect w now landmarks handedness) = false)
      ∧ ((afterDetect w now landmarks handedness).handler.lastGestureTime
            ≠ w.handler.lastGestureTime →
          dispatchedBetween w (afterDetect w now landmarks handedness) = true) := by
  rw [afterDetect_eq_worldOf]
  rcases detectGestures_cases w now landmarks handedness with
    ⟨label, w2, _, hg, hrec, _, hdet, hdis⟩ | ⟨h1, _, h3, h4, h5, _⟩
  · have hd : dispatchedBetween w (worldOf (detectGestures w now landmarks handedness)) = true := by
      rw [hdet]
      exact dispatchedBetween_of_dispatches_snoc _ _ _ hdis
    refine ⟨fun hf => ?_, fun hu => absurd hu hrec, fun hc => ?_, fun _ => hd⟩
    · rw [hd] at hf; cases hf
    · omega
  · have hd := dispatchedBetween_of_dispatches_eq w _ h3
    refine ⟨fun _ => ⟨h4, h5, by rw [h1], h1⟩, fun _ => hd, fun _ => hd, fun hne => ?_⟩
    rw [h1] at hne
    exact absurd rfl hne

/-- Witness of C11: a call at time 100 from a new handler is rejected by the
gate and changes nothing. -/
theorem detectGestures_frame_witness :
    dispatchedBetween (freshWorld samplePage)
        (afterDetect (freshWorld samplePage) 100 pointTouchHand (some "Right")) = false ∧
      (afterDetect (freshWorld samplePage) 100 pointTouchHand (some "Right")).effects.filter
          Effect.isPageAction = [] ∧
      (afterDetect (freshWorld samplePage) 100 pointTouchHand (some "Right")).handler
        = InklusivGestureHandler.new := by
  have h := detectGestures_frame (freshWorld samplePage) 100 pointTouchHand (some "Right")
  have hd := h.2.2.1 (by decide)
  exact ⟨hd, (h.1 hd).1, (h.1 hd).2.2.2⟩

/-- C12: for every frame with two detected hands that an enabled onResults
processes at times less than 500 ms apart (threshold 500), at most one gesture
is dispatched for the frame; and if the first hand, with its label, shows a
recognised gesture and the gate is open at its time, the one dispatch of the
frame is the first hand's and the second hand's gesture is suppressed. -/
theorem onResults_two_hands (w : World) (results : FrameResults) (clock : Nat → Int)
    (first second : Landmarks) (hen : w.handler.isEnabled = true)
    (hthr : w.handler.gestureThreshold = 500)
    (hhands : results.multiHandLandmarks = some [first, second])
    (hclose : clock 1 - clock 0 < 500) :
    dispatchCount (onResults w results clock).effects ≤ dispatchCount w.effects + 1
      ∧ (∀ label labels, results.multiHandedness = some (some label :: labels) →
          results.image = true → isHand21 first = true →
          classifyGesture first ≠ "unknown" →
          clock 0 - w.handler.lastGestureTime ≥ 500 →
          dispatches (onResults w results clock).effects = dispatches w.effects ++
            [.log (.gestureDetected (classifyGesture first) (toLowerCase label)) "info"]) := by
  have second_quiet : ∀ w1 : World, w1.handler = { w.handler with lastGestureTime := clock 0 } →
      dispatches (worldOf (handStep results (clock 1) 1 second w1)).effects
        = dispatches w1.effects := by
    intro w1 hh1
    rcases handStep_cases results (clock 1) 1 second w1 with ⟨_, _, hg, _⟩ | ⟨_, hq⟩
    · simp only [hh1, hthr] at hg; omega
    · exact hq
  rcases onResults_dispatches w results clock first [second] hen hhands with
    ⟨w0, hc, hd⟩ | ⟨w0, hc, hh0, hd0, hd⟩
  · constructor
    · rw [dispatchCount_eq_length, dispatchCount_eq_length, hd]; omega
    · intro label labels _ himg _ _ _
      exfalso
      unfold clearCanvas at hc
      rw [himg] at hc
      split_ifs at hc with _ himg2
      exact himg2 rfl
  · have hloop : handLoop results clock 0 [first, second] w0
        = match handStep results (clock 0) 0 first w0 with
          | .error w1 => .error w1
          | .ok w1 =>
            match handStep results (clock 1) 1 second w1 with
            | .error w2 => .error w2
            | .ok w2 => handLoop results clock 2 [] w2 := rfl
    rw [hloop] at hd
    constructor
    · rw [dispatchCount_eq_length, dispatchCount_eq_length, hd]
      rcases handStep_cases results (clock 0) 0 first w0 with
        ⟨_, w1, _, hs1, hh1, hd1⟩ | ⟨hh1, hd1⟩
      · rw [hs1]
        simp only
        rw [worldOf_handLoop_last, second_quiet w1 (by rw [hh1, hh0]), hd1, hd0]
        simp
      · cases hs1 : handStep results (clock 0) 0 first w0 with
        | error w1 =>
          rw [hs1] at hd1
          simp only [worldOf] at hd1 ⊢
          rw [hd1, hd0]; omega
        | ok w1 =>
          rw [hs1] at hd1 hh1
          simp only [worldOf] at hd1 hh1
          simp only
          rw [worldOf_handLoop_last]
          rcases handStep_cases results (clock 1) 1 second w1 with
            ⟨_, w2, _, hs2, _, hd2⟩ | ⟨_, hd2⟩
          · rw [hs2]
            simp only [worldOf]
            rw [hd2, hd1, hd0]; simp
          · rw [hd2, hd1, hd0]; omega
    · intro label labels hlabels _ hhand hrec hgate
      obtain ⟨w1, hs1, hh1, hd1⟩ := handStep_dispatch results (clock 0) 0 first w0
        (some label :: labels) label hlabels rfl (isDrawable_of_isHand21 hhand)
        (by rw [hh0, hthr]; exact hgate) hrec
      rw [hd, hs1]
      simp only
      rw [worldOf_handLoop_last, second_quiet w1 (by rw [hh1, hh0]), hd1, hd0]

/-- Witness of C12: on the frame of an index-only hand and a closed hand, seen at
1000 and 1001 by a handler with an active session, the one dispatch is point. -/
theorem onResults_two_hands_witness :
    dispatchCount (onResults (activeWorld samplePage) twoHandFrame sampleClock).effects ≤ 1
      ∧ dispatches (onResults (activeWorld samplePage) twoHandFrame sampleClock).effects
          = [.log (.gestureDetected "point" "right") "info"] := by
  have h := onResults_two_hands (activeWorld samplePage) twoHandFrame sampleClock
    pointTouchHand fistHand rfl rfl rfl (by decide)
  have h2 := h.2 "Right" [some "Left"] rfl rfl isHand21_pointTouchHand
    (by rw [classifyGesture_pointTouchHand]; decide) (by decide)
  rw [classifyGesture_pointTouchHand] at h2
  exact ⟨h.1, h2⟩

theorem matchesButtonSelector_iff (e : Element) :
    matchesButtonSelector e = true ↔ isButtonLike e := by
  simp [matchesButtonSelector, isButtonLike]

/-- The target of `querySelector`: the first element in document order that
matches the selector. -/
theorem querySelectorButton_first (page : Page) (pre post : List Element) (e : Element)
    (hsplit : page.elements = pre ++ e :: post) (he : matchesButtonSelector e = true)
    (hpre : ∀ x ∈ pre, matchesButtonSelector x = false) : querySelectorButton page = some e := by
  unfold querySelectorButton
  rw [hsplit, List.find?_append]
  have : pre.find? matchesButtonSelector = none := by
    rw [List.find?_eq_none]
    intro x hx
    simp [hpre x hx]
  simp [this, List.find?_cons, he]

theorem querySelectorButton_none (page : Page)
    (h : ∀ x ∈ page.elements, matchesButtonSelector x = false) :
    querySelectorButton page = none := by
  unfold querySelectorButton
  rw [List.find?_eq_none]
  intro x hx
  simp [h x hx]

/-- The gesture handlers read the page only and append to the trace. -/
theorem gestureSwitch_trace (w : World) (gesture : String) (es : List Effect) :
    gestureSwitch { w with effects := es } gesture
      = (gestureSwitch { w with effects := [] } gesture).map
          (fun w1 => { w1 with effects := es ++ w1.effects }) := by
  obtain ⟨handler, page, effects⟩ := w
  obtain ⟨active, elements, speech, reading, voice⟩ := page
  unfold gestureSwitch
  split_ifs
  · simp [handlePointGesture, World.emit]
  · simp [handlePeaceGesture, World.emit]
  · simp only [handleOKGesture, querySelectorButton, World.emit, Option.map]
    cases active with
    | none => cases elements.find? matchesButtonSelector <;> simp
    | some a =>
      simp only
      split_ifs
      · simp
      · cases elements.find? matchesButtonSelector <;> simp
  · simp [handleFistGesture, World.emit]
  · simp only [handleOpenHandGesture, stopSpeaking, World.emit]
    cases reading with
    | none => rfl
    | some b => cases b <;> cases speech <;> simp
  · simp only [handleThumbsUpGesture, World.emit]
    cases voice with
    | none => rfl
    | some b => simp
  · simp

/-- With a handedness label, `executeGesture` returns a world that differs from
case to case only in the hand written in its log line. -/
theorem executeGesture_shape (w : World) (gesture : String) :
    ∃ (rest : List Effect) (page : Page), ∀ label : String,
      executeGesture w gesture (some label)
        = .ok { handler := w.handler, page := page,
                effects := w.effects ++
                  .log (.gestureDetected gesture (toLowerCase label)) "info" :: rest } := by
  cases hs : gestureSwitch { w with effects := [] } gesture with
  | none =>
    refine ⟨[.log .executionError "error"], w.page, fun label => ?_⟩
    unfold executeGesture
    simp only [World.emit]
    rw [gestureSwitch_trace, hs]
    simp
  | some w2 =>
    have hh := (gestureSwitch_spec _ _ _ hs).1
    refine ⟨w2.effects ++ [.showNotification
      ("Gesture: " ++ (gestureNames.lookup gesture).getD gesture) "info" 1500], w2.page,
      fun label => ?_⟩
    unfold executeGesture
    simp only [World.emit]
    rw [gestureSwitch_trace, hs]
    simp only [Option.map, showGestureFeedback, World.emit, hh]
    simp

/-! ## Properties of the dispatcher -/

/-- C13, as stated, fails: on a page with no focused button or link and no button
or submit input, the ok gesture is logged and acknowledged but performs no page
action at all. -/
theorem ok_without_target_counterexample :
    samplePage.activeElement = none ∧ samplePage.elements = [] ∧
      ∃ w1, executeGesture (freshWorld samplePage) "ok" (some "Left") = .ok w1 ∧
        w1.effects = [.log (.gestureDetected "ok" "left") "info",
          .showNotification "Gesture: OK (Click)" "info" 1500] ∧
        w1.effects.filter Effect.isPageAction = [] :=
  ⟨rfl, rfl, _, rfl, rfl, rfl⟩

/-- The three cases of `handleOKGesture`: a focused button or link is clicked;
when the focused element, if any, is neither, the first element in document order
that matches the selector is clicked; and when no element matches, nothing is. -/
theorem handleOKGesture_cases (w : World) :
    (∀ a, w.page.activeElement = some a → a.tagName = "BUTTON" ∨ a.tagName = "A" →
        handleOKGesture w = w.emit (.click a.id))
      ∧ ((∀ a, w.page.activeElement = some a → ¬ (a.tagName = "BUTTON" ∨ a.tagName = "A")) →
          ∀ pre e post, w.page.elements = pre ++ e :: post → isButtonLike e →
            (∀ x ∈ pre, ¬ isButtonLike x) → handleOKGesture w = w.emit (.click e.id))
      ∧ ((∀ a, w.page.activeElement = some a → ¬ (a.tagName = "BUTTON" ∨ a.tagName = "A")) →
          (∀ x ∈ w.page.elements, ¬ isButtonLike x) → handleOKGesture w = w) := by
  refine ⟨fun a ha htag => ?_, fun hfocus pre e post hsplit he hpre => ?_,
    fun hfocus hnone => ?_⟩
  · simp [handleOKGesture, ha, htag]
  · have hq := querySelectorButton_first w.page pre post e hsplit
      ((matchesButtonSelector_iff e).2 he)
      (fun x hx => by
        have := hpre x hx
        rw [← matchesButtonSelector_iff] at this
        simpa using this)
    unfold handleOKGesture
    cases ha : w.page.activeElement with
    | none => simp [hq]
    | some a => simp [hfocus a ha, hq]
  · have hq := querySelectorButton_none w.page (fun x hx => by
      have := hnone x hx
      rw [← matchesButtonSelector_iff] at this
      simpa using this)
    unfold handleOKGesture
    cases ha : w.page.activeElement with
    | none => simp [hq]
    | some a => simp [hfocus a ha, hq]

/-- The ok gesture as `executeGesture` runs it: the log line, the clicks of
`handleOKGesture`, the feedback notification. -/
theorem executeGesture_ok (w : World) (label : String) (clicks : List Effect)
    (h : ∀ es, handleOKGesture { w with effects := es } = { w with effects := es ++ clicks }) :
    executeGesture w "ok" (some label)
      = .ok { w with effects := w.effects ++
          ([.log (.gestureDetected "ok" (toLowerCase label)) "info"] ++ clicks ++
            [.showNotification "Gesture: OK (Click)" "info" 1500]) } := by
  obtain ⟨handler, page, effects⟩ := w
  have hok : ∀ es, handleOKGesture ⟨handler, page, es⟩ = ⟨handler, page, es ++ clicks⟩ := h
  simp [executeGesture, gestureSwitch, hok, showGestureFeedback, World.emit, gestureNames,
    List.lookup]

/-- A focused element that is not button-like and not a link does not pass the
focus test of `handleOKGesture`. -/
theorem not_button_or_link {a : Element} (h : ¬ isButtonLike a ∧ a.tagName ≠ "A") :
    ¬ (a.tagName = "BUTTON" ∨ a.tagName = "A") := by
  rintro (hb | ha)
  · exact h.1 (Or.inl hb)
  · exact h.2 ha

/-- C13, amended: for each of the six gesture labels, with a handedness label and
the accessibility and voice scripts loaded, executeGesture logs the gesture,
performs at most one page-level action and then shows exactly one feedback
notification, by the fixed table: point scrolls by (0, 200); peace scrolls by
(0, -200); ok clicks at most one element: the focused element when it is a button
or a link, and, when nothing is focused or the focused element is not
interactive, the first button, submit input or button input in document order,
or nothing when the document has none; fist goes one step back in history; open
stops speech (cancel, isReading cleared) when speech output is active and
reloads the page otherwise; thumbsup requests voiceInput set to the negation of
the voice handler's enabled state. -/
theorem executeGesture_table (w : World) (label : String) :
    executeGesture w "point" (some label)
        = .ok { w with effects := w.effects ++
            [.log (.gestureDetected "point" (toLowerCase label)) "info", .scrollBy 0 200,
              .showNotification "Gesture: Point (Scroll Down)" "info" 1500] }
      ∧ executeGesture w "peace" (some label)
        = .ok { w with effects := w.effects ++
            [.log (.gestureDetected "peace" (toLowerCase label)) "info", .scrollBy 0 (-200),
              .showNotification "Gesture: Peace (Scroll Up)" "info" 1500] }
      ∧ (∃ clicks : List Effect, (clicks = [] ∨ ∃ id, clicks = [.click id]) ∧
          executeGesture w "ok" (some label)
            = .ok { w with effects := w.effects ++
                ([.log (.gestureDetected "ok" (toLowerCase label)) "info"] ++ clicks ++
                  [.showNotification "Gesture: OK (Click)" "info" 1500]) })
      ∧ executeGesture w "fist" (some label)
        = .ok { w with effects := w.effects ++
            [.log (.gestureDetected "fist" (toLowerCase label)) "info", .historyBack,
              .showNotification "Gesture: Fist (Go Back)" "info" 1500] }
      ∧ (w.page.inklusivAccessibility = some true → w.page.speechSynthesis = true →
          executeGesture w "open" (some label)
            = .ok { w with
                page := { w.page with inklusivAccessibility := some false },
                effects := w.effects ++
                  [.log (.gestureDetected "open" (toLowerCase label)) "info", .speechCancel,
                    .showNotification "Gesture: Open Hand (Stop/Refresh)" "info" 1500] })
      ∧ (w.page.inklusivAccessibility = some false →
          executeGesture w "open" (some label)
            = .ok { w with effects := w.effects ++
                [.log (.gestureDetected "open" (toLowerCase label)) "info", .reload,
                  .showNotification "Gesture: Open Hand (Stop/Refresh)" "info" 1500] })
      ∧ (∀ enabled : Bool, w.page.inklusivVoiceHandler = some enabled →
          executeGesture w "thumbsup" (some label)
            = .ok { w with effects := w.effects ++
                [.log (.gestureDetected "thumbsup" (toLowerCase label)) "info",
                  .toggleFeature "voiceInput" (!enabled),
                  .showNotification "Gesture: Thumbs Up (Toggle Voice)" "info" 1500] })
      ∧ (∀ a, w.page.activeElement = some a → a.tagName = "BUTTON" ∨ a.tagName = "A" →
          executeGesture w "ok" (some label)
            = .ok { w with effects := w.effects ++
                [.log (.gestureDetected "ok" (toLowerCase label)) "info", .click a.id,
                  .showNotification "Gesture: OK (Click)" "info" 1500] })
      ∧ ((∀ a, w.page.activeElement = some a → ¬ isButtonLike a ∧ a.tagName ≠ "A") →
          ∀ pre e post, w.page.elements = pre ++ e :: post → isButtonLike e →
            (∀ x ∈ pre, ¬ isButtonLike x) →
            executeGesture w "ok" (some label)
              = .ok { w with effects := w.effects ++
                  [.log (.gestureDetected "ok" (toLowerCase label)) "info", .click e.id,
                    .showNotification "Gesture: OK (Click)" "info" 1500] })
      ∧ ((∀ a, w.page.activeElement = some a → ¬ isButtonLike a ∧ a.tagName ≠ "A") →
          (∀ x ∈ w.page.elements, ¬ isButtonLike x) →
          executeGesture w "ok" (some label)
            = .ok { w with effects := w.effects ++
                [.log (.gestureDetected "ok" (toLowerCase label)) "info",
                  .showNotification "Gesture: OK (Click)" "info" 1500] }) := by
  refine ⟨?_, ?_, ?_, ?_, ?_, ?_, ?_, ?_, ?_, ?_⟩
  · obtain ⟨handler, page, effects⟩ := w
    simp [executeGesture, gestureSwitch, handlePointGesture, showGestureFeedback, World.emit,
      gestureNames, List.lookup]
  · obtain ⟨handler, page, effects⟩ := w
    simp [executeGesture, gestureSwitch, handlePeaceGesture, showGestureFeedback, World.emit,
      gestureNames, List.lookup]
  · obtain ⟨handler, page, effects⟩ := w
    obtain ⟨active, elements, speech, reading, voice⟩ := page
    have hgs : ∃ clicks : List Effect, (clicks = [] ∨ ∃ id, clicks = [.click id]) ∧
        ∀ es, handleOKGesture ⟨handler, ⟨active, elements, speech, reading, voice⟩, es⟩
          = ⟨handler, ⟨active, elements, speech, reading, voice⟩, es ++ clicks⟩ := by
      simp only [handleOKGesture, querySelectorButton, World.emit]
      cases active with
      | none =>
        cases elements.find? matchesButtonSelector with
        | none => exact ⟨[], Or.inl rfl, fun es => by simp⟩
        | some b => exact ⟨[.click b.id], Or.inr ⟨_, rfl⟩, fun es => rfl⟩
      | some a =>
        simp only
        split_ifs
        · exact ⟨[.click a.id], Or.inr ⟨_, rfl⟩, fun es => rfl⟩
        · cases elements.find? matchesButtonSelector with
          | none => exact ⟨[], Or.inl rfl, fun es => by simp⟩
          | some b => exact ⟨[.click b.id], Or.inr ⟨_, rfl⟩, fun es => rfl⟩
    obtain ⟨clicks, hc, hok⟩ := hgs
    exact ⟨clicks, hc, executeGesture_ok _ label clicks hok⟩
  · obtain ⟨handler, page, effects⟩ := w
    simp [executeGesture, gestureSwitch, handleFistGesture, showGestureFeedback, World.emit,
      gestureNames, List.lookup]
  · obtain ⟨handler, page, effects⟩ := w
    obtain ⟨active, elements, speech, reading, voice⟩ := page
    intro hr hs
    simp only at hr hs
    subst hr hs
    simp [executeGesture, gestureSwitch, handleOpenHandGesture, stopSpeaking,
      showGestureFeedback, World.emit, gestureNames, List.lookup]
  · obtain ⟨handler, page, effects⟩ := w
    obtain ⟨active, elements, speech, reading, voice⟩ := page
    intro hr
    simp only at hr
    subst hr
    simp [executeGesture, gestureSwitch, handleOpenHandGesture, showGestureFeedback, World.emit,
      gestureNames, List.lookup]
  · obtain ⟨handler, page, effects⟩ := w
    obtain ⟨active, elements, speech, reading, voice⟩ := page
    intro enabled hv
    simp only at hv
    subst hv
    simp [executeGesture, gestureSwitch, handleThumbsUpGesture, showGestureFeedback, World.emit,
      gestureNames, List.lookup]
  · intro a ha htag
    exact executeGesture_ok w label [.click a.id]
      (fun es => (handleOKGesture_cases { w with effects := es }).1 a ha htag)
  · intro hfocus pre e post hsplit he hpre
    exact executeGesture_ok w label [.click e.id]
      (fun es => (handleOKGesture_cases { w with effects := es }).2.1
        (fun a ha => not_button_or_link (hfocus a ha)) pre e post hsplit he hpre)
  · intro hfocus hnone
    have h := executeGesture_ok w label []
      (fun es => by
        rw [(handleOKGesture_cases { w with effects := es }).2.2
          (fun a ha => not_button_or_link (hfocus a ha)) hnone, List.append_nil])
    simpa using h

/-- Witness of the amended C13: with speech idle the open gesture reloads the
page, with voice input off the thumbsup gesture requests it on, and the ok
gesture clicks the focused link (not the button before it), the first submit
input of a page with nothing focused, and nothing on a page without elements. -/
theorem executeGesture_table_witness :
    executeGesture (freshWorld samplePage) "open" (some "Left")
        = .ok { freshWorld samplePage with effects := (freshWorld samplePage).effects ++
            [.log (.gestureDetected "open" (toLowerCase "Left")) "info", .reload,
              .showNotification "Gesture: Open Hand (Stop/Refresh)" "info" 1500] }
      ∧ executeGesture (freshWorld samplePage) "thumbsup" (some "Left")
        = .ok { freshWorld samplePage with effects := (freshWorld samplePage).effects ++
            [.log (.gestureDetected "thumbsup" (toLowerCase "Left")) "info",
              .toggleFeature "voiceInput" (!false),
              .showNotification "Gesture: Thumbs Up (Toggle Voice)" "info" 1500] }
      ∧ executeGesture (freshWorld focusedLinkPage) "ok" (some "Left")
        = .ok { freshWorld focusedLinkPage with
            effects := (freshWorld focusedLinkPage).effects ++
              [.log (.gestureDetected "ok" (toLowerCase "Left")) "info", .click 2,
                .showNotification "Gesture: OK (Click)" "info" 1500] }
      ∧ executeGesture (freshWorld submitFirstPage) "ok" (some "Left")
        = .ok { freshWorld submitFirstPage with
            effects := (freshWorld submitFirstPage).effects ++
              [.log (.gestureDetected "ok" (toLowerCase "Left")) "info", .click 2,
                .showNotification "Gesture: OK (Click)" "info" 1500] }
      ∧ executeGesture (freshWorld samplePage) "ok" (some "Left")
        = .ok { freshWorld samplePage with effects := (freshWorld samplePage).effects ++
            [.log (.gestureDetected "ok" (toLowerCase "Left")) "info",
              .showNotification "Gesture: OK (Click)" "info" 1500] } :=
  ⟨(executeGesture_table (freshWorld samplePage) "Left").2.2.2.2.2.1 rfl,
    (executeGesture_table (freshWorld samplePage) "Left").2.2.2.2.2.2.1 false rfl,
    (executeGesture_table (freshWorld focusedLinkPage) "Left").2.2.2.2.2.2.2.1
      ⟨2, "A", none⟩ rfl (Or.inr rfl),
    (executeGesture_table (freshWorld submitFirstPage) "Left").2.2.2.2.2.2.2.2.1
      (fun a ha => by cases ha)
      [⟨1, "P", none⟩] ⟨2, "INPUT", some "submit"⟩ [⟨3, "BUTTON", none⟩] rfl
      (Or.inr ⟨rfl, Or.inl rfl⟩)
      (fun x hx => by
        have hx1 : x = ⟨1, "P", none⟩ := by simpa using hx
        rw [hx1, ← matchesButtonSelector_iff]
        decide),
    (executeGesture_table (freshWorld samplePage) "Left").2.2.2.2.2.2.2.2.2
      (fun a ha => by cases ha) (fun x hx => by cases hx)⟩

/-- C14: the code departs from the claim and from its own comment ("Click the
currently focused element or first button"): with a button followed by a submit
input in the document and the submit input focused, the ok action clicks the
button (id 1), not the focused input (id 2), although the focused input is one of
the elements that the fallback selector of the same method takes as a target. -/
theorem focused_submit_counterexample :
    focusedSubmitPage.activeElement = some ⟨2, "INPUT", some "submit"⟩ ∧
      focusedSubmitPage.elements = [⟨1, "BUTTON", none⟩, ⟨2, "INPUT", some "submit"⟩] ∧
      matchesButtonSelector ⟨2, "INPUT", some "submit"⟩ = true ∧
      (handleOKGesture (freshWorld focusedSubmitPage)).effects = [.click 1] :=
  ⟨rfl, rfl, by decide, by decide⟩

/-- C15: for every gesture label and every two handedness labels, executeGesture
returns with the same handler object and the same page, and its trace differs
only in the hand written in the log line: the page actions and the feedback
notification that follow are the same. -/
theorem executeGesture_handedness (w : World) (gesture first second : String) :
    ∃ (rest : List Effect) (w1 w2 : World),
      executeGesture w gesture (some first) = .ok w1 ∧
      executeGesture w gesture (some second) = .ok w2 ∧
      w1.handler = w2.handler ∧ w1.page = w2.page ∧
      w1.effects = w.effects ++ .log (.gestureDetected gesture (toLowerCase first)) "info" :: rest ∧
      w2.effects = w.effects ++ .log (.gestureDetected gesture (toLowerCase second)) "info" :: rest ∧
      (w1.effects.filter Effect.isPageAction = w2.effects.filter Effect.isPageAction) ∧
      (w1.effects.filter Effect.isNotification = w2.effects.filter Effect.isNotification) := by
  obtain ⟨rest, page, h⟩ := executeGesture_shape w gesture
  refine ⟨rest, _, _, h first, h second, rfl, rfl, rfl, rfl, ?_, ?_⟩
  · simp [List.filter_append, List.filter_cons, Effect.isPageAction]
  · simp [List.filter_append, List.filter_cons, Effect.isNotification]

/-- C16: end to end, for a hand of 21 landmarks with the extension vector
0, 1, 0, 0, 0, seen with its label when the gate is open (threshold 500):
detectGestures classifies point, logs it, scrolls down by (0, 200) exactly once,
shows the feedback and records the time; and a second identical detection 100 ms
later changes nothing, so it produces no additional scroll. -/
theorem point_end_to_end (w : World) (now : Int) (landmarks : Landmarks) (label : String)
    (page : Page) (hthr : w.handler.gestureThreshold = 500)
    (hhand : isHand21 landmarks = true)
    (hvec : extensionVector landmarks = [false, true, false, false, false])
    (hgate : now - w.handler.lastGestureTime ≥ 500) :
    classifyGesture landmarks = "point"
      ∧ detectGestures w now landmarks (some label)
        = .ok { handler := { w.handler with lastGestureTime := now }, page := w.page,
                effects := w.effects ++
                  [.log (.gestureDetected "point" (toLowerCase label)) "info", .scrollBy 0 200,
                    .showNotification "Gesture: Point (Scroll Down)" "info" 1500] }
      ∧ detectGestures
          { handler := { w.handler with lastGestureTime := now }, page := page,
            effects := w.effects ++
              [.log (.gestureDetected "point" (toLowerCase label)) "info", .scrollBy 0 200,
                .showNotification "Gesture: Point (Scroll Down)" "info" 1500] }
          (now + 100) landmarks (some label)
        = .ok { handler := { w.handler with lastGestureTime := now }, page := page,
                effects := w.effects ++
                  [.log (.gestureDetected "point" (toLowerCase label)) "info", .scrollBy 0 200,
                    .showNotification "Gesture: Point (Scroll Down)" "info" 1500] } := by
  have hpoint : classifyGesture landmarks = "point" := by
    rw [classifyGesture_of_hand hhand, hvec]
    cases tipsTouch landmarks <;> decide
  refine ⟨hpoint, ?_, ?_⟩
  · obtain ⟨w2, h2, hd, _, _⟩ := detectGestures_dispatch w now landmarks label
      (by rw [hthr]; omega) (by rw [hpoint]; decide)
    rw [hpoint] at h2
    have hexec : executeGesture w "point" (some label)
        = .ok { w with effects := w.effects ++
            [.log (.gestureDetected "point" (toLowerCase label)) "info", .scrollBy 0 200,
              .showNotification "Gesture: Point (Scroll Down)" "info" 1500] } := by
      simp [executeGesture, gestureSwitch, handlePointGesture, showGestureFeedback, World.emit,
        gestureNames, List.lookup]
    rw [hexec] at h2
    cases h2
    rw [hd]
  · unfold detectGestures
    rw [if_pos (by simp only [hthr]; omega)]

/-- Witness of C16 at the index-only hand, seen at 1000 by a new handler. -/
theorem point_end_to_end_witness :
    classifyGesture pointTouchHand = "point"
      ∧ detectGestures (freshWorld samplePage) 1000 pointTouchHand (some "Right")
        = .ok { handler := { InklusivGestureHandler.new with lastGestureTime := 1000 },
                page := samplePage,
                effects := [] ++
                  [.log (.gestureDetected "point" (toLowerCase "Right")) "info", .scrollBy 0 200,
                    .showNotification "Gesture: Point (Scroll Down)" "info" 1500] } :=
  ⟨(point_end_to_end (freshWorld samplePage) 1000 pointTouchHand "Right" samplePage rfl
      isHand21_pointTouchHand extensionVector_pointTouchHand (by decide)).1,
    (point_end_to_end (freshWorld samplePage) 1000 pointTouchHand "Right" samplePage rfl
      isHand21_pointTouchHand extensionVector_pointTouchHand (by decide)).2.1⟩

/-- C17: whenever gesture input is disabled, onResults called with any frame
result, a stale one that arrives after teardown included, returns at once: it
dispatches nothing, shows nothing and leaves the handler, lastGestureTime
included, and the whole trace unchanged. -/
theorem onResults_disabled (w : World) (results : FrameResults) (clock : Nat → Int)
    (h : w.handler.isEnabled = false) :
    onResults w results clock = w
      ∧ dispatches (onResults w results clock).effects = dispatches w.effects
      ∧ (onResults w results clock).effects.filter Effect.isPageAction
          = w.effects.filter Effect.isPageAction
      ∧ (onResults w results clock).effects.filter Effect.isNotification
          = w.effects.filter Effect.isNotification
      ∧ (onResults w results clock).handler.lastGestureTime = w.handler.lastGestureTime := by
  have key : onResults w results clock = w := by
    unfold onResults
    rw [h]
    rfl
  rw [key]
  exact ⟨rfl, rfl, rfl, rfl, rfl⟩

/-- Witness of C17: a frame with two hands that reaches a new, disabled handler
at time 1000 leaves it as it is. -/
theorem onResults_disabled_witness :
    onResults (freshWorld samplePage) twoHandFrame sampleClock = freshWorld samplePage :=
  (onResults_disabled (freshWorld samplePage) twoHandFrame sampleClock rfl).1

/-- C18 at its failing input: an enable request to a new handler, whose landmark
model is not initialised, shows the one notification and creates no camera,
video, stream or canvas, but leaves isEnabled true. -/
theorem enable_uninitialized_stays_enabled :
    (freshWorld samplePage).handler.isInitialized = false ∧
      (toggleGestureInput (freshWorld samplePage) true workingCamera).handler
        = { InklusivGestureHandler.new with isEnabled := true } ∧
      (toggleGestureInput (freshWorld samplePage) true workingCamera).handler.isEnabled = true ∧
      (toggleGestureInput (freshWorld samplePage) true workingCamera).effects
        = [.showNotification "Gesture tracking not available" "error" 3000] :=
  ⟨rfl, rfl, rfl, rfl⟩

/-- C19 at its failing input: with a capture session active, a featureToggled
message for gestureInput with the value true acquires a second stream, appends a
second video and a second canvas and constructs a second Camera, while nothing
of the first session is stopped or removed; the same request delivered by
settingsUpdated is a no-op. -/
theorem reenable_active_starts_second_session :
    isActiveSession (toggleGestureInput (initializedWorld samplePage) true workingCamera).handler
        = true ∧
      (toggleGestureInput (initializedWorld samplePage) true workingCamera).effects
        = [.getUserMedia, .appendElement "video", .appendElement "canvas", .newCamera,
            .cameraStart, .showNotification "Gesture tracking started" "success" 3000,
            .updateGestureStatus true] ∧
      (onMessage (toggleGestureInput (initializedWorld samplePage) true workingCamera)
          (.featureToggled "gestureInput" true) workingCamera).effects
        = [.getUserMedia, .appendElement "video", .appendElement "canvas", .newCamera,
            .cameraStart, .showNotification "Gesture tracking started" "success" 3000,
            .updateGestureStatus true,
            .getUserMedia, .appendElement "video", .appendElement "canvas", .newCamera,
            .cameraStart, .showNotification "Gesture tracking started" "success" 3000,
            .updateGestureStatus true] ∧
      onMessage (toggleGestureInput (initializedWorld samplePage) true workingCamera)
          (.settingsUpdated true) workingCamera
        = toggleGestureInput (initializedWorld samplePage) true workingCamera :=
  ⟨rfl, rfl, rfl, rfl⟩

theorem startErrorMessage_denied_iff (errorName : String) :
    startErrorMessage errorName
        = "Camera access denied. Please allow camera access for gesture input."
      ↔ errorName = "NotAllowedError" := by
  unfold startErrorMessage
  split_ifs with h
  · simp [h]
  · simp only [h, iff_false]
    decide

/-- C20: if, on an enable request to an initialised handler, acquiring the camera
stream fails or starting the camera fails, with an error of any name, then after
toggleGestureInput(true) isEnabled is false and exactly one notification has
been shown, an error notification, whose message is the distinct
camera-access-denied one if and only if the name of the error is NotAllowedError. -/
theorem enable_failure_disables (w : World) (env : CameraEnv) (errorName : String)
    (hinit : w.handler.isInitialized = true)
    (hfail : (env.mediaDevices = true ∧ env.getUserMedia = .error errorName) ∨
      (env.mediaDevices = true ∧ env.getUserMedia = .ok () ∧ env.cameraClass = true ∧
        env.cameraStart = .error errorName)) :
    (toggleGestureInput w true env).handler.isEnabled = false
      ∧ (toggleGestureInput w true env).effects.filter Effect.isNotification
        = w.effects.filter Effect.isNotification ++
            [.showNotification (startErrorMessage errorName) "error" 3000]
      ∧ (startErrorMessage errorName
            = "Camera access denied. Please allow camera access for gesture input."
          ↔ errorName = "NotAllowedError") := by
  refine ⟨?_, ?_, startErrorMessage_denied_iff errorName⟩
  · rcases hfail with ⟨h1, h2⟩ | ⟨h1, h2, h3, h4⟩
    · simp [toggleGestureInput, startGestureTracking, startGestureTrackingBody, hinit, h1, h2,
        World.emit]
    · simp [toggleGestureInput, startGestureTracking, startGestureTrackingBody, hinit, h1, h2,
        h3, h4, World.emit, createVideoElements]
  · rcases hfail with ⟨h1, h2⟩ | ⟨h1, h2, h3, h4⟩
    · simp [toggleGestureInput, startGestureTracking, startGestureTrackingBody, hinit, h1, h2,
        World.emit, List.filter_append, Effect.isNotification]
    · simp [toggleGestureInput, startGestureTracking, startGestureTrackingBody, hinit, h1, h2,
        h3, h4, World.emit, createVideoElements, List.filter_append, Effect.isNotification]

/-- Witness of C20: the user refuses the camera. -/
theorem enable_failure_disables_witness :
    (toggleGestureInput (initializedWorld samplePage) true deniedCamera).handler.isEnabled = false
      ∧ (toggleGestureInput (initializedWorld samplePage) true deniedCamera).effects.filter
          Effect.isNotification
        = [.showNotification
            "Camera access denied. Please allow camera access for gesture input." "error" 3000] := by
  have h := enable_failure_disables (initializedWorld samplePage) deniedCamera "NotAllowedError"
    rfl (Or.inl ⟨rfl, rfl⟩)
  exact ⟨h.1, h.2.1⟩

/-! ## Properties of the capture controller and of the classifier, continued -/

/-- C21: for every state with an active capture session, a disable request stops
the camera, stops every track of the stream and releases it, removes the video
and the canvas element and tells the user: afterwards isEnabled is false and
camera, videoElement (with its stream), canvasElement and canvasCtx are null. -/
theorem disable_active_session (w : World) (env : CameraEnv)
    (h : isActiveSession w.handler = true) :
    (toggleGestureInput w false env).handler.isEnabled = false
      ∧ (toggleGestureInput w false env).handler.camera = false
      ∧ (toggleGestureInput w false env).handler.videoElement = false
      ∧ (toggleGestureInput w false env).handler.videoSrcObject = false
      ∧ (toggleGestureInput w false env).handler.canvasElement = false
      ∧ (toggleGestureInput w false env).handler.canvasCtx = false
      ∧ (toggleGestureInput w false env).effects
        = w.effects ++ [.cameraStop, .stopTracks, .removeElement "video",
            .removeElement "canvas", .updateGestureStatus false,
            .showNotification "Gesture tracking stopped" "info" 3000] := by
  simp only [isActiveSession, Bool.and_eq_true] at h
  obtain ⟨⟨⟨⟨⟨_, _⟩, hcam⟩, hvid⟩, hsrc⟩, hcan⟩ := h
  simp [toggleGestureInput, stopGestureTracking, removeVideoElements, updateGestureStatus,
    World.emit, hcam, hvid, hsrc, hcan]

/-- Witness of C21 at the session that a successful enable request leaves. -/
theorem disable_active_session_witness :
    isActiveSession (activeWorld samplePage).handler = true
      ∧ (toggleGestureInput (activeWorld samplePage) false workingCamera).handler.isEnabled
          = false
      ∧ (toggleGestureInput (activeWorld samplePage) false workingCamera).handler.camera = false
      ∧ (toggleGestureInput (activeWorld samplePage) false workingCamera).handler.videoElement
          = false :=
  ⟨rfl, (disable_active_session (activeWorld samplePage) workingCamera rfl).1,
    (disable_active_session (activeWorld samplePage) workingCamera rfl).2.1,
    (disable_active_session (activeWorld samplePage) workingCamera rfl).2.2.1⟩

/-- C22 at its failing input: an enable request to an initialised handler whose
stream is acquired and whose camera.start() rejects ends with isEnabled false
while the Camera object, the video element and its stream are still there, and
nothing of them has been stopped or removed. -/
theorem start_failure_leaves_session :
    (toggleGestureInput (initializedWorld samplePage) true startFailsCamera).handler.isEnabled
        = false
      ∧ (toggleGestureInput (initializedWorld samplePage) true startFailsCamera).handler.camera
        = true
      ∧ (toggleGestureInput (initializedWorld samplePage) true
          startFailsCamera).handler.videoElement = true
      ∧ (toggleGestureInput (initializedWorld samplePage) true
          startFailsCamera).handler.videoSrcObject = true
      ∧ (toggleGestureInput (initializedWorld samplePage) true startFailsCamera).effects
        = [.getUserMedia, .appendElement "video", .appendElement "canvas", .newCamera,
            .cameraStart, .log .trackingStartError "error",
            .showNotification "Failed to start gesture tracking" "error" 3000] :=
  ⟨rfl, rfl, rfl, rfl, rfl⟩

theorem isOKGesture_numeric (landmarks : Landmarks) (x4 y4 x8 y8 : ℚ) (z4 z8 : Coord)
    (h4 : landmarkAt landmarks 4 = some ⟨some x4, some y4, z4⟩)
    (h8 : landmarkAt landmarks 8 = some ⟨some x8, some y8, z8⟩) :
    isOKGesture landmarks = decide (computedDistance x4 y4 x8 y8 < double005) := by
  simp only [isOKGesture, isOKGestureBody, h4, h8, jsAdd, jsSub, jsPow2, jsSqrt_sum,
    computedDistance, Option.some_bind, Option.bind_eq_bind, Option.pure_def]
  rfl

/-- C23, as stated, fails in both directions. With the thumb tip at (0, 0) and the
index tip at the doubles (0.0325, 0.03799671038392666) the exact distance is below
0.05 and isOKGesture returns false; with the thumb tip at the doubles
(0.8961994660064108, 0.05748236799480899) and the index tip at the doubles
(0.8888351038129854, 0.008027679951267085) the exact distance is not below 0.05
and isOKGesture returns true. -/
theorem isOKGesture_exact_counterexample :
    (closerExact nearHand = true ∧ isOKGesture nearHand = false) ∧
      (closerExact farHand = false ∧ isOKGesture farHand = true) := by
  refine ⟨⟨closerExact_nearHand, ?_⟩, ⟨closerExact_farHand, ?_⟩⟩
  · rw [isOKGesture_of_hand isHand21_nearHand, tipsTouch_nearHand]
  · rw [isOKGesture_of_hand isHand21_farHand, tipsTouch_farHand]

/-- C23, amended: for every thumb tip and index tip with numeric coordinates,
isOKGesture returns true exactly when their distance in the x-y plane, as
computed in double arithmetic (each of the subtractions, squares, the sum and the
square root rounded to the nearest double), is strictly less than the double
0.05; a computed distance of exactly that double is not ok, and two tips at the
same point are ok. -/
theorem isOKGesture_iff_computed (landmarks : Landmarks) (x4 y4 x8 y8 : ℚ) (z4 z8 : Coord)
    (h4 : landmarkAt landmarks 4 = some ⟨some x4, some y4, z4⟩)
    (h8 : landmarkAt landmarks 8 = some ⟨some x8, some y8, z8⟩) :
    (isOKGesture landmarks = true ↔ computedDistance x4 y4 x8 y8 < double005)
      ∧ (computedDistance x4 y4 x8 y8 = double005 → isOKGesture landmarks = false)
      ∧ (x4 = x8 → y4 = y8 → isOKGesture landmarks = true) := by
  have hnum := isOKGesture_numeric landmarks x4 y4 x8 y8 z4 z8 h4 h8
  refine ⟨?_, fun heq => ?_, fun hx hy => ?_⟩
  · rw [hnum, decide_eq_true_eq]
  · rw [hnum, heq, decide_eq_false_iff_not]
    exact lt_irrefl _
  · rw [hnum, hx, hy, computedDistance_self, decide_eq_true_eq]
    exact double005_pos

/-- Witness of the amended C23: with the thumb tip at (0, 0) and the index tip at
the doubles (0.0325, 0.03799671038392666) the computed distance is the double 0.05,
and the tips are not ok. -/
theorem isOKGesture_iff_computed_witness :
    computedDistance 0 0 (mkRat 1170935903116329 36028797018963968)
        (mkRat 684487882905427 18014398509481984) = double005 ∧
      isOKGesture nearHand = false :=
  ⟨by decide!,
    (isOKGesture_iff_computed nearHand 0 0 (mkRat 1170935903116329 36028797018963968)
      (mkRat 684487882905427 18014398509481984) (some 0) (some 0)
      (by rw [nearHand, landmarkAt_handWith _ _ 4 (by decide)]; rfl)
      (by rw [nearHand, landmarkAt_handWith _ _ 8 (by decide)]; rfl)).2.1 (by decide!)⟩

/-- C25: classifyGesture depends only on the x coordinates of the landmarks 3, 4,
8 and the y coordinates of the landmarks 4, 6, 8, 10, 12, 14, 16, 18, 20: two
hands of 21 landmarks that agree on those coordinates get the same label,
whatever their z coordinates and their other landmarks are. -/
theorem classifyGesture_reads_only (a b : Landmarks) (ha : isHand21 a = true)
    (hb : isHand21 b = true)
    (hx : ∀ i ∈ [3, 4, 8], (pt a i).x = (pt b i).x)
    (hy : ∀ i ∈ [4, 6, 8, 10, 12, 14, 16, 18, 20], (pt a i).y = (pt b i).y) :
    classifyGesture a = classifyGesture b := by
  have hv : extensionVector a = extensionVector b := by
    simp only [extensionVector, hx 3 (by decide), hx 4 (by decide), hy 6 (by decide),
      hy 8 (by decide), hy 10 (by decide), hy 12 (by decide), hy 14 (by decide),
      hy 16 (by decide), hy 18 (by decide), hy 20 (by decide)]
  have ht : tipsTouch a = tipsTouch b := by
    simp only [tipsTouch, hx 4 (by decide), hx 8 (by decide), hy 4 (by decide),
      hy 8 (by decide)]
  rw [classifyGesture_of_hand ha, classifyGesture_of_hand hb, hv, ht]

theorem isHand21_pointTouchHandVariant : isHand21 pointTouchHandVariant = true :=
  isHand21_handWith _ _

/-- Witness of C25: the index-only hand and its variant with another wrist and
another depth of the thumb tip get the same label. -/
theorem classifyGesture_reads_only_witness :
    pointTouchHand ≠ pointTouchHandVariant ∧
      classifyGesture pointTouchHand = classifyGesture pointTouchHandVariant := by
  constructor
  · intro h
    have h0 : pt pointTouchHand 0 = pt pointTouchHandVariant 0 := by rw [h]
    rw [pointTouchHand, pointTouchHandVariant, pt_handWith _ _ 0 (by decide),
      pt_handWith _ _ 0 (by decide)] at h0
    simp [List.lookup, mkPoint] at h0
  · apply classifyGesture_reads_only _ _ isHand21_pointTouchHand isHand21_pointTouchHandVariant
    · intro i hi
      simp only [List.mem_cons, List.mem_singleton, List.not_mem_nil, or_false] at hi
      rcases hi with rfl | rfl | rfl <;>
        simp [pointTouchHand, pointTouchHandVariant, pt_handWith, List.lookup, mkPoint]
    · intro i hi
      simp only [List.mem_cons, List.mem_singleton, List.not_mem_nil, or_false] at hi
      rcases hi with rfl | rfl | rfl | rfl | rfl | rfl | rfl | rfl | rfl <;>
        simp [pointTouchHand, pointTouchHandVariant, pt_handWith, List.lookup, mkPoint]

/-- C26: for every hand whose 21 landmarks are all the same point (x, y) with any
depth, the all-zero hand among them, classifyGesture returns ok: no finger counts
as extended, because both comparisons are strict, and the thumb-to-index distance
is 0, so the ok rule fires before the fist rule. -/
theorem classifyGesture_same_point (x y : ℚ) (z : Coord) :
    extensionVector (constHand ⟨some x, some y, z⟩) = [false, false, false, false, false]
      ∧ tipsTouch (constHand ⟨some x, some y, z⟩) = true
      ∧ classifyGesture (constHand ⟨some x, some y, z⟩) = "ok"
      ∧ classifyGesture allZeroHand = "ok" := by
  have hv : extensionVector (constHand ⟨some x, some y, z⟩)
      = [false, false, false, false, false] := by
    simp [extensionVector, pt_constHand, jsLt, jsGt]
  have ht : tipsTouch (constHand ⟨some x, some y, z⟩) = true := by
    simp [tipsTouch, pt_constHand, computedDistance_self, double005_pos]
  refine ⟨hv, ht, ?_, classifyGesture_allZeroHand⟩
  rw [classifyGesture_of_hand (isHand21_constHand _), hv, ht]
  decide

/-! ## Helper lemmas on settings -/

theorem lookup_map_set (settings : Settings) (key : String) (value : SettingValue)
    (k : String) :
    (settings.map (fun p => if p.1 = key then (key, value) else p)).lookup k
      = if k = key then (settings.lookup k).map (fun _ => value) else settings.lookup k := by
  induction settings with
  | nil => simp
  | cons p rest ih =>
    obtain ⟨a, b⟩ := p
    by_cases hak : a = key
    · by_cases hk : k = key
      · subst hak hk
        simp [List.lookup_cons]
      · subst hak
        have : (k == a) = false := by simpa using hk
        simp [List.lookup_cons, this, ih, hk]
    · by_cases hka : k = a
      · subst hka
        simp [List.lookup_cons, hak]
      · have : (k == a) = false := by simpa using hka
        simp [List.lookup_cons, hak, this, ih]

/-- After `settings[key] = value`, reading `key` gives `value`. -/
theorem getKey_setKey_same (settings : Settings) (key : String) (value : SettingValue) :
    getKey (setKey settings key value) key = some value := by
  unfold getKey setKey hasKey
  split_ifs with h
  · rw [lookup_map_set]
    cases hl : settings.lookup key with
    | none => rw [hl] at h; cases h
    | some v => simp
  · have hn : settings.lookup key = none := by
      cases hl : settings.lookup key with
      | none => rfl
      | some v => rw [hl] at h; exact absurd rfl h
    rw [List.lookup_append, hn]
    simp

/-- After `settings[key] = value`, every other key reads as before. -/
theorem getKey_setKey_other (settings : Settings) (key : String) (value : SettingValue)
    (k : String) (hk : k ≠ key) : getKey (setKey settings key value) k = getKey settings k := by
  unfold getKey setKey hasKey
  split_ifs with h
  · rw [lookup_map_set, if_neg hk]
  · have : (k == key) = false := by simpa using hk
    rw [List.lookup_append]
    simp [List.lookup_cons, this]

/-- When every tab carries an address, the broadcast reaches exactly the page
tabs, once each, in the order of the tabs. -/
theorem broadcastSends_eq (message : FeatureToggled) (tabs : List Tab)
    (h : ∀ tab ∈ tabs, tab.url.isSome = true) :
    broadcastSends message tabs = (tabs.filter isPageTab).map (fun tab => (tab.id, message)) := by
  induction tabs with
  | nil => rfl
  | cons tab rest ih =>
    have hrest : ∀ t ∈ rest, t.url.isSome = true := fun t ht => h t (List.mem_cons_of_mem _ ht)
    have htab := h tab (List.mem_cons_self _ _)
    cases hu : tab.url with
    | none => rw [hu] at htab; cases htab
    | some url =>
      by_cases hc : startsWith url "chrome://" = true
      · simp [broadcastSends, hu, hc, isPageTab, List.filter_cons, ih hrest]
      · simp [broadcastSends, hu, hc, isPageTab, List.filter_cons, ih hrest]

/-! ## Properties of the settings store, the voice commands and the widget -/

/-- When every open tab carries its address and the feature is not `__proto__`,
the background `toggleFeature` stores a mapping in which the feature maps to the
value and every other key keeps its previous value, and sends one message to
every tab whose address does not start with `chrome://`, and to no other tab. -/
theorem toggleFeature_of_urls (st : BackgroundState) (feature : String)
    (value : SettingValue) (hurls : ∀ tab ∈ st.tabs, tab.url.isSome = true)
    (hfeature : feature ≠ "__proto__") :
    getKey (InklusivBackground.getSettings (InklusivBackground.toggleFeature st feature value))
        feature = some value
      ∧ (∀ key, key ≠ feature →
          getKey (InklusivBackground.getSettings
              (InklusivBackground.toggleFeature st feature value)) key
            = getKey (InklusivBackground.getSettings st) key)
      ∧ (InklusivBackground.toggleFeature st feature value).sent
          = st.sent ++ (st.tabs.filter isPageTab).map (fun tab => (tab.id, ⟨feature, value⟩))
      ∧ (InklusivBackground.toggleFeature st feature value).tabs = st.tabs := by
  refine ⟨?_, fun key hkey => ?_, ?_, rfl⟩
  · simp only [InklusivBackground.toggleFeature, InklusivBackground.broadcastToAllTabs,
      InklusivBackground.saveSettings, InklusivBackground.getSettings, assignKey,
      if_neg hfeature]
    exact getKey_setKey_same _ _ _
  · simp only [InklusivBackground.toggleFeature, InklusivBackground.broadcastToAllTabs,
      InklusivBackground.saveSettings, InklusivBackground.getSettings, assignKey,
      if_neg hfeature]
    exact getKey_setKey_other _ _ _ _ hkey
  · simp only [InklusivBackground.toggleFeature, InklusivBackground.broadcastToAllTabs,
      InklusivBackground.saveSettings]
    rw [broadcastSends_eq _ _ hurls]

/-- The setting is stored whatever the tabs are, for a feature other than
`__proto__`; for `__proto__` the stored mapping is the one read. -/
theorem toggleFeature_storage (st : BackgroundState) (feature : String) (value : SettingValue) :
    (feature ≠ "__proto__" →
        getKey (InklusivBackground.getSettings
          (InklusivBackground.toggleFeature st feature value)) feature = some value)
      ∧ (InklusivBackground.toggleFeature st "__proto__" value).storage
          = some (InklusivBackground.getSettings st) := by
  refine ⟨fun hfeature => ?_, ?_⟩
  · simp only [InklusivBackground.toggleFeature, InklusivBackground.broadcastToAllTabs,
      InklusivBackground.saveSettings, InklusivBackground.getSettings, assignKey,
      if_neg hfeature]
    exact getKey_setKey_same _ _ _
  · simp [InklusivBackground.toggleFeature, InklusivBackground.broadcastToAllTabs,
      InklusivBackground.saveSettings, assignKey]

/-- C24: the code departs from the claim and from its own comment ("Broadcast to
all tabs"): with the open tabs 1 (https://a.example/), 2 (no url) and
3 (https://b.example/), toggleFeature('darkMode', true) stores darkMode = true
and sends the featureToggled message to tab 1 only, although tab 3 is an open tab
whose address does not start with chrome://; reading `tab.url.startsWith` of tab
2 throws and ends the broadcast. -/
theorem broadcast_stops_at_urlless_tab :
    mixedTabsBackground.tabs.filter isPageTab
        = [⟨1, some "https://a.example/"⟩, ⟨3, some "https://b.example/"⟩]
      ∧ getKey (InklusivBackground.getSettings
          (InklusivBackground.toggleFeature mixedTabsBackground "darkMode" (.bool true)))
          "darkMode" = some (.bool true)
      ∧ (InklusivBackground.toggleFeature mixedTabsBackground "darkMode" (.bool true)).sent
          = [(1, ⟨"darkMode", .bool true⟩)] :=
  ⟨by decide, by decide, by decide⟩

theorem find_first_including (commands pre post : List String) (transcript c : String)
    (hsplit : commands = pre ++ c :: post) (hc : includes transcript c = true)
    (hpre : ∀ p ∈ pre, includes transcript p = false) :
    commands.find? (fun command => includes transcript command) = some c := by
  rw [hsplit, List.find?_append]
  have : pre.find? (fun command => includes transcript command) = none := by
    rw [List.find?_eq_none]
    intro x hx
    simp [hpre x hx]
  simp [this, List.find?_cons, hc]

theorem find_none_including (commands : List String) (transcript : String)
    (h : ∀ c ∈ commands, includes transcript c = false) :
    commands.find? (fun command => includes transcript command) = none := by
  rw [List.find?_eq_none]
  intro x hx
  simp [h x hx]

/-- C27, as stated, fails: for the transcript "hello", which holds no registered
phrase and starts with none of the three words, with no input field focused,
no handler runs at all; the call only shows the not-recognized notification. -/
theorem no_handler_counterexample :
    processSpeechCommand commandPhrases false "hello" = .notRecognized "hello" ∧
      (processSpeechCommand commandPhrases false "hello").isHandler = false := by
  decide

/-- C27, amended: processSpeechCommand runs at most one handler per transcript,
chosen in this order: the registered command equal to the transcript; otherwise
the first command in registration order whose phrase occurs in the transcript;
and only when no registered phrase occurs in it, typeText, performSearch or
clickByText for the beginnings "type ", "search for " and "click ", in that
order, with the remainder after 5, 11 and 6 characters; and when none of these
applies, typeText with the whole transcript if an input field is focused, and
otherwise no handler, only the not-recognized notification. Hence
"type scroll up" runs the scroll-up command and types nothing. -/
theorem processSpeechCommand_order (commands : List String) (fieldFocused : Bool)
    (transcript : String) :
    (transcript ∈ commands →
        processSpeechCommand commands fieldFocused transcript = .command transcript)
      ∧ (transcript ∉ commands → ∀ pre c post, commands = pre ++ c :: post →
          includes transcript c = true → (∀ p ∈ pre, includes transcript p = false) →
          processSpeechCommand commands fieldFocused transcript = .command c)
      ∧ (transcript ∉ commands → (∀ c ∈ commands, includes transcript c = false) →
          (startsWith transcript "type " = true →
            processSpeechCommand commands fieldFocused transcript
              = .typeText (substringFrom transcript 5))
          ∧ (startsWith transcript "type " = false →
              startsWith transcript "search for " = true →
            processSpeechCommand commands fieldFocused transcript
              = .performSearch (substringFrom transcript 11))
          ∧ (startsWith transcript "type " = false →
              startsWith transcript "search for " = false →
              startsWith transcript "click " = true →
            processSpeechCommand commands fieldFocused transcript
              = .clickByText (substringFrom transcript 6))
          ∧ (startsWith transcript "type " = false →
              startsWith transcript "search for " = false →
              startsWith transcript "click " = false →
            processSpeechCommand commands fieldFocused transcript
              = if fieldFocused then .typeText transcript else .notRecognized transcript))
      ∧ processSpeechCommand commandPhrases fieldFocused "type scroll up" = .command "scroll up" := by
  refine ⟨fun hmem => ?_, fun hnot pre c post hsplit hc hpre => ?_, fun hnot hnone => ?_, ?_⟩
  · simp [processSpeechCommand, hmem]
  · simp [processSpeechCommand, hnot, find_first_including commands pre post transcript c hsplit hc hpre]
  · have hf := find_none_including commands transcript hnone
    refine ⟨fun h1 => ?_, fun h1 h2 => ?_, fun h1 h2 h3 => ?_, fun h1 h2 h3 => ?_⟩
    · simp [processSpeechCommand, hnot, hf, h1]
    · simp [processSpeechCommand, hnot, hf, h1, h2]
    · simp [processSpeechCommand, hnot, hf, h1, h2, h3]
    · simp [processSpeechCommand, hnot, hf, h1, h2, h3]
  · cases fieldFocused <;> decide

/-- Witness of the amended C27: "type hello" holds no registered phrase and is
typed as "hello"; "please scroll down now" runs the scroll-down command. -/
theorem processSpeechCommand_order_witness :
    processSpeechCommand commandPhrases false "type hello" = .typeText "hello" ∧
      processSpeechCommand commandPhrases false "please scroll down now"
        = .command "scroll down" := by
  have h := processSpeechCommand_order commandPhrases false "type hello"
  have h2 := processSpeechCommand_order commandPhrases false "please scroll down now"
  refine ⟨?_, ?_⟩
  · have := (h.2.2.1 (by decide) (by decide)).1 (by decide)
    rw [this]
    decide
  · exact h2.2.1 (by decide) ["scroll up"] "scroll down" _ rfl (by decide) (by decide)

/-- C28, as stated, fails: in a viewport 100 wide a widget 200 wide that is
dragged ends at x = 0, which is above innerWidth - offsetWidth = -100; and a
widget at x = -30 stays at -30 when the viewport is resized to 100 with a widget
40 wide. -/
theorem widget_bounds_counterexample :
    ¬ withinViewport (draggedWidget.drag ⟨100, 100, 200, 50⟩ 10 10) ⟨100, 100, 200, 50⟩
      ∧ (draggedWidget.drag ⟨100, 100, 200, 50⟩ 10 10).positionX = 0
      ∧ ¬ withinViewport (offscreenWidget.adjustPositionOnResize ⟨100, 100, 40, 40⟩)
          ⟨100, 100, 40, 40⟩
      ∧ (offscreenWidget.adjustPositionOnResize ⟨100, 100, 40, 40⟩).positionX = -30 := by
  have h1 : (draggedWidget.drag ⟨100, 100, 200, 50⟩ 10 10).positionX = 0 := by
    simp [InklusivWidget.drag, draggedWidget]
    norm_num
  have h2 : (offscreenWidget.adjustPositionOnResize ⟨100, 100, 40, 40⟩).positionX = -30 := by
    simp [InklusivWidget.adjustPositionOnResize, offscreenWidget]
    norm_num
  refine ⟨?_, h1, ?_, h2⟩
  · intro h
    have := h.2.1
    rw [h1] at this
    norm_num at this
  · intro h
    have := h.1
    rw [h2] at this
    norm_num at this

/-- C28, amended: for every viewport at least as wide and as high as the widget,
and every pointer position, the widget is inside the viewport after a drag
(0 <= x <= innerWidth - offsetWidth and 0 <= y <= innerHeight - offsetHeight),
and it is inside the viewport after adjustPositionOnResize when its position
before had x >= 0 and y >= 0. -/
theorem widget_within_viewport (widget : InklusivWidget) (g : WidgetGeometry)
    (clientX clientY : ℚ) (hw : g.offsetWidth ≤ g.innerWidth)
    (hh : g.offsetHeight ≤ g.innerHeight) :
    (widget.isDragging = true → withinViewport (widget.drag g clientX clientY) g)
      ∧ (0 ≤ widget.positionX → 0 ≤ widget.positionY →
          withinViewport (widget.adjustPositionOnResize g) g) := by
  have hx : 0 ≤ g.innerWidth - g.offsetWidth := by linarith
  have hy : 0 ≤ g.innerHeight - g.offsetHeight := by linarith
  constructor
  · intro hd
    simp only [InklusivWidget.drag, hd, Bool.not_true, Bool.false_eq_true, if_false,
      withinViewport]
    exact ⟨le_max_left _ _, max_le hx (min_le_right _ _), le_max_left _ _,
      max_le hy (min_le_right _ _)⟩
  · intro hpx hpy
    simp only [InklusivWidget.adjustPositionOnResize, withinViewport]
    exact ⟨le_min hpx hx, min_le_right _ _, le_min hpy hy, min_le_right _ _⟩

/-- Witness of the amended C28: a drag far to the right in a viewport of 100 by
100 leaves a widget of 40 by 40 inside the viewport. -/
theorem widget_within_viewport_witness :
    withinViewport (draggedWidget.drag ⟨100, 100, 40, 40⟩ 500 500) ⟨100, 100, 40, 40⟩ :=
  (widget_within_viewport draggedWidget ⟨100, 100, 40, 40⟩ 500 500 (by norm_num)
    (by norm_num)).1 rfl

/-- The value `settings[feature] || false` is truthy exactly when
`settings[feature]` is. -/
theorem truthy_current (o : Option SettingValue) :
    truthy (some (if truthy o = true then o.getD (.bool false) else .bool false)) = truthy o := by
  by_cases h : truthy o = true
  · rw [if_pos h]
    cases o with
    | none => cases h
    | some v => rfl
  · rw [if_neg h]
    have hf : truthy o = false := by simpa using h
    rw [hf]
    rfl

/-- C29, as stated, fails: with darkMode stored as the empty string, a toggle
whose saving fails leaves darkMode at false, not at the value it had before. -/
theorem toggle_revert_counterexample :
    getKey emptyStringWidget.settings "darkMode" = some (.str "")
      ∧ getKey (emptyStringWidget.toggleFeature "darkMode" false).1.settings "darkMode"
        = some (.bool false) := by
  decide

/-- C29, amended: for every settings mapping and feature, if saving fails the local
value of the feature after the call is the value it had before when that value
was truthy, and false otherwise (when it was unset or falsy), in particular a
boolean keeps its value, and the error notification is shown; if saving succeeds
the local value is the boolean negation of the previous value; in both cases
every other feature's local value is unchanged. -/
theorem widget_toggleFeature_atomic (widget : InklusivWidget) (feature : String) :
    (truthy (getKey widget.settings feature) = true →
        getKey (widget.toggleFeature feature false).1.settings feature
          = getKey widget.settings feature)
      ∧ (truthy (getKey widget.settings feature) = false →
        getKey (widget.toggleFeature feature false).1.settings feature = some (.bool false))
      ∧ (∀ b : Bool, getKey widget.settings feature = some (.bool b) →
        getKey (widget.toggleFeature feature false).1.settings feature = some (.bool b))
      ∧ (widget.toggleFeature feature false).2.filter Effect.isNotification
          = [.showNotification "Failed to save setting" "error" 3000]
      ∧ getKey (widget.toggleFeature feature true).1.settings feature
          = some (.bool (!truthy (getKey widget.settings feature)))
      ∧ (widget.toggleFeature feature true).2.filter Effect.isNotification = []
      ∧ (∀ (success : Bool) (key : String), key ≠ feature →
        getKey (widget.toggleFeature feature success).1.settings key
          = getKey widget.settings key) := by
  have hfail : getKey (widget.toggleFeature feature false).1.settings feature
      = some (if truthy (getKey widget.settings feature) = true then
          (getKey widget.settings feature).getD (.bool false) else .bool false) := by
    simp only [InklusivWidget.toggleFeature, Bool.false_eq_true, if_false]
    exact getKey_setKey_same _ _ _
  refine ⟨fun ht => ?_, fun hf => ?_, fun b hb => ?_, ?_, ?_, ?_, fun success key hkey => ?_⟩
  · rw [hfail, if_pos ht]
    cases hg : getKey widget.settings feature with
    | none => rw [hg] at ht; cases ht
    | some v => rfl
  · rw [hfail, hf]
    rfl
  · rw [hfail, hb]
    cases b <;> rfl
  · simp [InklusivWidget.toggleFeature, Effect.isNotification]
  · simp only [InklusivWidget.toggleFeature, if_true]
    rw [getKey_setKey_same, truthy_current]
  · simp [InklusivWidget.toggleFeature, Effect.isNotification]
  · cases success
    · simp only [InklusivWidget.toggleFeature, Bool.false_eq_true, if_false]
      rw [getKey_setKey_other _ _ _ _ hkey, getKey_setKey_other _ _ _ _ hkey]
    · simp only [InklusivWidget.toggleFeature, if_true]
      rw [getKey_setKey_other _ _ _ _ hkey]

/-- Witness of the amended C29: a failed toggle of voiceInput, which is true,
leaves it true, and leaves darkMode as it was. -/
theorem widget_toggleFeature_atomic_witness :
    getKey (emptyStringWidget.toggleFeature "voiceInput" false).1.settings "voiceInput"
        = some (.bool true)
      ∧ getKey (emptyStringWidget.toggleFeature "voiceInput" false).1.settings "darkMode"
        = some (.str "") := by
  have h := widget_toggleFeature_atomic emptyStringWidget "voiceInput"
  refine ⟨?_, ?_⟩
  · rw [h.1 (by decide)]
    decide
  · rw [h.2.2.2.2.2.2 false "darkMode" (by decide)]
    decide

theorem importKey_eq (defaults importedSettings validSettings : Settings) (key : String) :
    importKey defaults importedSettings validSettings key
      = setKey validSettings key
          ((importedOrDefault defaults importedSettings key).getD .null) := by
  unfold importKey importedOrDefault
  split_ifs <;> rfl

/-- The object that `importSettings` builds, key by key. -/
theorem importSettings_eq (importedSettings : Settings) :
    InklusivPopup.importSettings defaultSettings importedSettings
      = (defaultSettings.map Prod.fst).map (fun key =>
          (key, (importedOrDefault defaultSettings importedSettings key).getD .null)) := by
  simp only [InklusivPopup.importSettings, defaultSettings, List.map, List.foldl, importKey_eq]
  simp [setKey, hasKey, List.lookup_cons]

/-- C30: for every imported JSON object, the settings built by importSettings have
exactly the key set of defaultSettings, in its order: each key takes the imported
value when the imported object has that key and the default value otherwise, and
keys of the imported object that are not default keys are dropped. -/
theorem importSettings_keys (importedSettings : Settings) :
    (InklusivPopup.importSettings defaultSettings importedSettings).map Prod.fst
        = defaultSettings.map Prod.fst
      ∧ (∀ key ∈ defaultSettings.map Prod.fst,
          getKey (InklusivPopup.importSettings defaultSettings importedSettings) key
            = if hasKey importedSettings key then getKey importedSettings key
              else getKey defaultSettings key)
      ∧ (∀ key, key ∉ defaultSettings.map Prod.fst →
          getKey (InklusivPopup.importSettings defaultSettings importedSettings) key = none) := by
  refine ⟨?_, fun key hkey => ?_, fun key hkey => ?_⟩
  · rw [importSettings_eq]
    simp [List.map_map, Function.comp_def]
  · have hval : ∀ k, hasKey defaultSettings k = true →
        some ((importedOrDefault defaultSettings importedSettings k).getD .null)
          = if hasKey importedSettings k then getKey importedSettings k
            else getKey defaultSettings k := by
      intro k hk
      unfold importedOrDefault
      split_ifs with h
      · unfold hasKey at h
        unfold getKey
        cases hl : importedSettings.lookup k with
        | none => rw [hl] at h; cases h
        | some v => rfl
      · unfold hasKey at hk
        unfold getKey
        cases hl : defaultSettings.lookup k with
        | none => rw [hl] at hk; cases hk
        | some v => rfl
    rw [importSettings_eq]
    simp only [defaultSettings, List.map, List.mem_cons, List.mem_singleton, List.not_mem_nil,
      or_false] at hkey
    rcases hkey with rfl | rfl | rfl | rfl | rfl | rfl | rfl | rfl | rfl
    all_goals
      rw [← hval _ (by decide)]
      simp [getKey, defaultSettings, List.lookup_cons]
  · rw [importSettings_eq]
    unfold getKey
    rw [List.lookup_eq_none_iff]
    intro p hp
    simp only [List.mem_map] at hp
    obtain ⟨k, ⟨q, hq, hqk⟩, rfl⟩ := hp
    simp only [bne_iff_ne, ne_eq]
    intro heq
    apply hkey
    rw [heq]
    exact List.mem_map.2 ⟨q, hq, hqk⟩

/-- Witness of C30: from an object with darkMode true and a foreign key theme,
darkMode is taken over, voiceInput gets its default, and theme is dropped. -/
theorem importSettings_keys_witness :
    getKey (InklusivPopup.importSettings defaultSettings sampleImport) "darkMode"
        = some (.bool true)
      ∧ getKey (InklusivPopup.importSettings defaultSettings sampleImport) "voiceInput"
        = some (.bool false)
      ∧ getKey (InklusivPopup.importSettings defaultSettings sampleImport) "theme" = none := by
  have h := importSettings_keys sampleImport
  refine ⟨?_, ?_, h.2.2 "theme" (by decide)⟩
  · rw [h.2.1 "darkMode" (by decide)]
    decide
  · rw [h.2.1 "voiceInput" (by decide)]
    decide

end Inklusiv
